import Mathlib

/-!
# Verification of the bibidi_backend onboarding / authorization workflow

Shallow embedding of the TypeScript backend (controllers, domain services,
middleware) over an explicit relational state.  Database tables are lists of
row structures; each request handler is a pure function from state and
request data to a result and a new state.

Modelling conventions (stated once here):
* JS `Date` values are modelled as `Nat` timestamps; the database clock and
  per-request `new Date()` are passed in as an explicit `now` argument.
* SQL `decimal` columns are modelled as the `String` values the ORM returns;
  JS numbers reaching those columns are modelled as `Int` (only their textual
  form is ever used by the code under verification).
* `uuid` / `serial` primary keys generated by the database are passed in as
  explicit fresh-id arguments (for uuids) or drawn from `nextRoleId` /
  `nextCategoryId` counters in the state (for serials).
* TS optional/nullable distinctions are kept: `Option α` models
  `α | undefined`, and `JsOpt α` below models `α | null | undefined`.
* External collaborators are abstracted exactly as the spec scopes them out:
  bcrypt hashing is an opaque injective tagging, JWT signing yields the
  embedded payload, `Math.random` draws are supplied as a `Nat → Nat` source,
  and Joi's `email`/`uri`/`uuid` string-format checks are modelled by
  simplified structural predicates.
* Default timestamp columns (`created_at`) and columns never read or written
  by any modelled operation (ratings, commission totals, `archivedAt`,
  `isAvailable`) are omitted from the row structures.
-/

set_option autoImplicit false

namespace Bibidi

/-- TS `α | null | undefined`: `undef` is an absent key, `null` an explicit
JSON null.  Mirrors the sparse-patch reads `x !== undefined` and `x ?? y`. -/
inductive JsOpt (α : Type) where
  | undef
  | null
  | val (a : α)
  deriving DecidableEq, Repr

namespace JsOpt

/-- JS `x ?? d` (nullish coalescing): `null` and `undefined` give `d`. -/
def getD {α : Type} (x : JsOpt α) (d : α) : α :=
  match x with
  | .undef => d
  | .null => d
  | .val a => a

/-- Collapse to `Option`, as `x ?? null` does before a nullable column write. -/
def toOption {α : Type} (x : JsOpt α) : Option α :=
  match x with
  | .undef => none
  | .null => none
  | .val a => some a

end JsOpt

/-- A TS `string | number` union (drizzle decimal inputs). -/
inductive NumOrStr where
  | num (n : Int)
  | str (s : String)
  deriving DecidableEq, Repr

/-- `toDecimalString` from providerProfilesService: `undefined`/`null` ↦ null,
numbers ↦ their textual form, strings pass through. -/
def toDecimalString (value : JsOpt NumOrStr) : Option String :=
  match value with
  | .undef => none
  | .null => none
  | .val (.num n) => some (toString n)
  | .val (.str s) => some s

/-- `toDateValue` from providerProfilesService.  `Date | string` inputs are
modelled post-parse: `some t` is a valid date with timestamp `t`, `none` an
invalid date string (JS date parsing itself is an external concern). -/
def toDateValue (value : JsOpt (Option Nat)) : Option Nat :=
  match value with
  | .undef => none
  | .null => none
  | .val o => o

/-- `hashPassword` (helpers.ts): bcrypt is external; modelled as an opaque
injective tagging of the plaintext. -/
def hashPassword (password : String) : String :=
  "bcrypt$" ++ password

/-- `generateRandomString` (helpers.ts).  `randoms i` supplies the `i`-th
`Math.random` draw, already scaled: the code uses
`Math.floor(Math.random() * characters.length)`, modelled as `randoms i % 62`. -/
def generateRandomString (length : Nat) (randoms : Nat → Nat) : String :=
  let characters := "ABCDEFGHIJKLMNOPQRSTUVWXYZabcdefghijklmnopqrstuvwxyz0123456789"
  String.mk ((List.range length).map (fun i => characters.data.getD (randoms i % characters.data.length) 'A'))

/-- JS `String.prototype.trim`: strip leading and trailing whitespace
(implemented by structural recursion over the character list so that concrete
instances evaluate inside the kernel). -/
def jsTrim (s : String) : String :=
  String.mk (((s.data.dropWhile Char.isWhitespace).reverse.dropWhile Char.isWhitespace).reverse)

/-- JS `String.prototype.toLowerCase` (structural form of `String.toLower`). -/
def strToLower (s : String) : String :=
  String.mk (s.data.map Char.toLower)

/-- Split a character list on a separator character (structural form of
`String.splitOn` with a one-character separator). -/
def splitChar (sep : Char) : List Char → List (List Char)
  | [] => [[]]
  | a :: rest =>
    match splitChar sep rest with
    | [] => if a == sep then [[], []] else [[a]]
    | h :: t => if a == sep then [] :: h :: t else (a :: h) :: t

/-- String wrapper around `splitChar`. -/
def strSplitChar (sep : Char) (s : String) : List String :=
  (splitChar sep s.data).map String.mk

/-- `sanitizeString` (helpers.ts): drop `<` and `>`, then trim. -/
def sanitizeString (input : String) : String :=
  jsTrim (String.mk (input.data.filter (fun c => c ≠ '<' ∧ c ≠ '>')))

theorem length_dropWhile_le {α : Type} (p : α → Bool) (l : List α) :
    (l.dropWhile p).length ≤ l.length := by
  induction l with
  | nil => simp [List.dropWhile]
  | cons a t ih =>
    simp only [List.dropWhile]
    cases p a
    · simp
    · exact Nat.le_succ_of_le ih

/-- One step of the `replace(/\s+/g, ' ')` normalisation: every maximal
whitespace run becomes a single space. -/
def collapseWs : List Char → List Char
  | [] => []
  | c :: rest =>
    if c.isWhitespace then
      ' ' :: collapseWs (rest.dropWhile Char.isWhitespace)
    else
      c :: collapseWs rest
termination_by l => l.length
decreasing_by
  · simp only [List.length_cons]
    exact Nat.lt_succ_of_le (length_dropWhile_le _ _)
  · simp

/-- `splitFullName` (utils/names.ts): trim, collapse whitespace, split on
spaces; a single token gives an empty last name. -/
def splitFullName (fullName : String) : String × String :=
  let normalized := String.mk (collapseWs (jsTrim fullName).data)
  match strSplitChar ' ' normalized with
  | [only] => (sanitizeString only, "")
  | p :: rest => (sanitizeString p, sanitizeString (String.intercalate " " rest))
  | [] => ("", "")

/-- `isValidEmail` (helpers.ts), regex `^[^\s@]+@[^\s@]+\.[^\s@]+$`; also used
as the model of Joi's `string().email()` check. -/
def isValidEmail (email : String) : Bool :=
  match strSplitChar '@' email with
  | [lp, dp] =>
    !lp.isEmpty && lp.data.all (fun c => !c.isWhitespace) &&
    !dp.isEmpty && dp.data.all (fun c => !c.isWhitespace) &&
    ((dp.data.drop 1).dropLast).contains '.'
  | _ => false

/-- Hex digit check for the uuid format model. -/
def isHexChar (c : Char) : Bool :=
  c.isDigit || ('a' ≤ c && c ≤ 'f') || ('A' ≤ c && c ≤ 'F')

/-- Model of Joi's `string().uuid()`: five hyphen-separated hex groups of
lengths 8-4-4-4-12. -/
def uuidFormatOk (s : String) : Bool :=
  match strSplitChar '-' s with
  | [a, b, c, d, e] =>
    a.length == 8 && b.length == 4 && c.length == 4 && d.length == 4 && e.length == 12 &&
    (a.data ++ b.data ++ c.data ++ d.data ++ e.data).all isHexChar
  | _ => false

/-- Scan for a `://` separator. -/
def hasSchemeSep : List Char → Bool
  | ':' :: '/' :: '/' :: _ => true
  | _ :: rest => hasSchemeSep rest
  | [] => false

/-- Model of Joi's `string().uri()`: a nonempty scheme followed by `://`. -/
def uriFormatOk (s : String) : Bool :=
  match s.data with
  | [] => false
  | c :: rest => !(c == ':') && hasSchemeSep (c :: rest)

/-- SQL `LIKE` pattern matching over char lists: `%` matches any run, `_` any
single char, anything else itself. -/
def likeMatches : List Char → List Char → Bool
  | [], t => t.isEmpty
  | p :: ps, t =>
    if p = '%' then
      match t with
      | [] => likeMatches ps []
      | c :: ts => likeMatches ps (c :: ts) || likeMatches (p :: ps) ts
    else
      match t with
      | [] => false
      | c :: ts => if p = '_' then likeMatches ps ts else p == c && likeMatches ps ts
termination_by p t => p.length + t.length
decreasing_by all_goals simp_arith [List.length_cons]

/-- Postgres `ILIKE`: case-insensitive `LIKE` (drizzle's `ilike`). -/
def matchesIlike (name pattern : String) : Bool :=
  likeMatches (strToLower pattern).data (strToLower name).data

/-- Is `needle` a leading segment of `hay`? -/
def matchFront : List Char → List Char → Bool
  | [], _ => true
  | _ :: _, [] => false
  | a :: as, b :: bs => a == b && matchFront as bs

/-- Substring test used only to state facts about error-message contents. -/
def strContains (hay needle : String) : Bool :=
  let rec go : List Char → Bool
    | [] => matchFront needle.data []
    | c :: rest => matchFront needle.data (c :: rest) || go rest
  go hay.data

/-! ## Relational state (db/schema.ts) -/

/-- `users` row. -/
structure UserRow where
  id : String
  email : String
  password : String
  firstName : String
  lastName : String
  deriving DecidableEq, Repr

/-- `roles` row (serial id). -/
structure RoleRow where
  id : Nat
  name : String
  description : Option String
  deriving DecidableEq, Repr

/-- `user_roles` join row, composite key `(userId, roleId)`. -/
structure UserRoleRow where
  userId : String
  roleId : Nat
  deriving DecidableEq, Repr

/-- `recruiters` row. -/
structure RecruiterRow where
  id : String
  userId : String
  phone : String
  city : String
  status : String
  latitude : Option Int
  longitude : Option Int
  avatarUrl : Option String
  deriving DecidableEq, Repr

/-- `recruiter_invitations` row. -/
structure InvitationRow where
  id : String
  email : String
  token : String
  status : String
  invitedBy : Option String
  expiresAt : Option Nat
  acceptedAt : Option Nat
  revokedAt : Option Nat
  deriving DecidableEq, Repr

/-- `recruiter_events` append-only audit row (jsonb metadata modelled as
string key/value pairs). -/
structure RecruiterEventRow where
  recruiterId : String
  eventType : String
  metadata : List (String × String)
  deriving DecidableEq, Repr

/-- `categories` row (serial id). -/
structure CategoryRow where
  id : Nat
  name : String
  icon : String
  color : String
  deriving DecidableEq, Repr

/-- `provider_profiles` row (decimal columns as strings). -/
structure ProviderProfileRow where
  id : String
  userId : String
  firstName : String
  lastName : String
  businessName : String
  description : Option String
  profilePictureURL : Option String
  serviceTitle : String
  categoryId : Option Nat
  pricePerHour : Option String
  locationString : Option String
  fullAddress : Option String
  contactPhone : Option String
  latitude : Option String
  longitude : Option String
  portfolioImageURLs : Option (List String)
  nextAvailability : Option Nat
  status : String
  onboardedBy : Option String
  onboardedAt : Option Nat
  updatedAt : Nat
  deriving DecidableEq, Repr

/-- `provider_documents` row. -/
structure ProviderDocumentRow where
  id : String
  providerId : String
  documentType : String
  storageKey : Option String
  fileUrl : String
  fileName : Option String
  mimeType : Option String
  fileSize : Option Int
  uploadedBy : Option String
  deriving DecidableEq, Repr

/-- The database: one list per table, plus the serial-id counters. -/
structure Db where
  users : List UserRow
  roles : List RoleRow
  userRoles : List UserRoleRow
  recruiters : List RecruiterRow
  recruiterInvitations : List InvitationRow
  recruiterEvents : List RecruiterEventRow
  categories : List CategoryRow
  providerProfiles : List ProviderProfileRow
  providerDocuments : List ProviderDocumentRow
  nextRoleId : Nat
  nextCategoryId : Nat
  deriving DecidableEq, Repr

/-- Relevant `process.env` entries. -/
structure Env where
  jwtSecret : Option String
  providerTempPassword : Option String
  deriving DecidableEq, Repr

/-- The identity the auth middleware attaches to `req.user`. -/
structure AuthUser where
  userId : String
  roles : List String
  deriving DecidableEq, Repr

/-- The payload `jwt.sign` embeds; signing itself is external, so a token is
identified with its payload. -/
structure TokenPayload where
  userId : String
  roles : List String
  deriving DecidableEq, Repr

/-- `generateToken` (authController): throws when `JWT_SECRET` is unset or
empty (JS falsiness); `none` models the thrown error. -/
def generateToken (jwtSecret : Option String) (userId : String) (roleNames : List String) :
    Option TokenPayload :=
  match jwtSecret with
  | none => none
  | some s => if s.isEmpty then none else some ⟨userId, roleNames⟩

/-! ## providerProfilesService -/

/-- `ensureRoleId`: look up by name; insert with the next serial id when
absent (the `onConflictDoNothing` insert cannot conflict sequentially, since
the lookup just found nothing). -/
def ensureRoleId (roleName description : String) (db : Db) : Nat × Db :=
  match db.roles.filter (fun r => r.name == roleName) with
  | r :: _ => (r.id, db)
  | [] =>
    (db.nextRoleId,
     { db with
        roles := db.roles ++ [⟨db.nextRoleId, roleName, some description⟩],
        nextRoleId := db.nextRoleId + 1 })

/-- `ensureUserHasRole`: idempotent join-row insert. -/
def ensureUserHasRole (userId : String) (roleId : Nat) (db : Db) : Db :=
  if (db.userRoles.filter (fun ur => ur.userId == userId && ur.roleId == roleId)).isEmpty then
    { db with userRoles := db.userRoles ++ [⟨userId, roleId⟩] }
  else
    db

/-- `ensureCategoryByName`: trim, bail out on blank, `ILIKE` lookup, insert
with default icon/color on miss (`onConflictDoNothing` on the exact unique
name), falling back to a re-select when the insert conflicts. -/
def ensureCategoryByName (name : String) (db : Db) : Option Nat × Db :=
  let trimmed := jsTrim name
  if trimmed.isEmpty then (none, db)
  else
    match (db.categories.filter (fun c => matchesIlike c.name trimmed)).head? with
    | some c => (some c.id, db)
    | none =>
      if db.categories.any (fun c => c.name == trimmed) then
        ((db.categories.filter (fun c => matchesIlike c.name trimmed)).head?.map (fun c => c.id), db)
      else
        (some db.nextCategoryId,
         { db with
            categories := db.categories ++ [⟨db.nextCategoryId, trimmed, "🛠️", "#2563eb"⟩],
            nextCategoryId := db.nextCategoryId + 1 })

/-- `ProviderProfileCreateInput` (providerProfilesService). -/
structure ProviderProfileCreateInput where
  userId : String
  firstName : String
  lastName : String
  businessName : String
  description : JsOpt String
  profilePictureURL : JsOpt String
  serviceTitle : String
  categoryId : JsOpt Nat
  pricePerHour : JsOpt NumOrStr
  locationString : JsOpt String
  fullAddress : JsOpt String
  contactPhone : JsOpt String
  latitude : JsOpt NumOrStr
  longitude : JsOpt NumOrStr
  portfolioImageURLs : JsOpt (List String)
  nextAvailability : JsOpt (Option Nat)
  status : Option String
  onboardedBy : JsOpt String
  onboardedAt : JsOpt Nat
  deriving DecidableEq, Repr

/-- `createProviderProfileRecord`: insert with `??`-defaults and the decimal /
date normalisation; the fresh uuid and the db clock are explicit. -/
def createProviderProfileRecord (input : ProviderProfileCreateInput)
    (newId : String) (now : Nat) (db : Db) : ProviderProfileRow × Db :=
  let profile : ProviderProfileRow :=
    { id := newId
      userId := input.userId
      firstName := input.firstName
      lastName := input.lastName
      businessName := input.businessName
      description := input.description.toOption
      profilePictureURL := input.profilePictureURL.toOption
      serviceTitle := input.serviceTitle
      categoryId := input.categoryId.toOption
      pricePerHour := toDecimalString input.pricePerHour
      locationString := input.locationString.toOption
      fullAddress := input.fullAddress.toOption
      contactPhone := input.contactPhone.toOption
      latitude := toDecimalString input.latitude
      longitude := toDecimalString input.longitude
      portfolioImageURLs := input.portfolioImageURLs.toOption
      nextAvailability := toDateValue input.nextAvailability
      status := input.status.getD "pending"
      onboardedBy := input.onboardedBy.toOption
      onboardedAt := input.onboardedAt.toOption
      updatedAt := now }
  (profile, { db with providerProfiles := db.providerProfiles ++ [profile] })

/-- `ProviderProfileUpdateInput` (providerProfilesService): every field
optional; nullable columns additionally admit an explicit null. -/
structure ProviderProfileUpdateInput where
  firstName : Option String
  lastName : Option String
  businessName : Option String
  description : JsOpt String
  profilePictureURL : JsOpt String
  serviceTitle : Option String
  categoryId : JsOpt Nat
  pricePerHour : JsOpt NumOrStr
  locationString : JsOpt String
  fullAddress : JsOpt String
  contactPhone : JsOpt String
  latitude : JsOpt NumOrStr
  longitude : JsOpt NumOrStr
  portfolioImageURLs : JsOpt (List String)
  nextAvailability : JsOpt (Option Nat)
  status : Option String
  onboardedBy : JsOpt String
  onboardedAt : JsOpt Nat
  deriving DecidableEq, Repr

/-- The `.set({...})` object of `updateProviderProfileRecord`: a key is spread
in only when the update field is not `undefined`; `updatedAt` always. -/
def applyProfileUpdate (updates : ProviderProfileUpdateInput) (now : Nat)
    (p : ProviderProfileRow) : ProviderProfileRow :=
  { p with
    businessName := updates.businessName.getD p.businessName
    description :=
      match updates.description with
      | .undef => p.description
      | x => x.toOption
    profilePictureURL :=
      match updates.profilePictureURL with
      | .undef => p.profilePictureURL
      | x => x.toOption
    serviceTitle := updates.serviceTitle.getD p.serviceTitle
    categoryId :=
      match updates.categoryId with
      | .undef => p.categoryId
      | x => x.toOption
    firstName := updates.firstName.getD p.firstName
    lastName := updates.lastName.getD p.lastName
    pricePerHour :=
      match updates.pricePerHour with
      | .undef => p.pricePerHour
      | x => toDecimalString x
    locationString :=
      match updates.locationString with
      | .undef => p.locationString
      | x => x.toOption
    fullAddress :=
      match updates.fullAddress with
      | .undef => p.fullAddress
      | x => x.toOption
    contactPhone :=
      match updates.contactPhone with
      | .undef => p.contactPhone
      | x => x.toOption
    latitude :=
      match updates.latitude with
      | .undef => p.latitude
      | x => toDecimalString x
    longitude :=
      match updates.longitude with
      | .undef => p.longitude
      | x => toDecimalString x
    portfolioImageURLs :=
      match updates.portfolioImageURLs with
      | .undef => p.portfolioImageURLs
      | x => x.toOption
    nextAvailability :=
      match updates.nextAvailability with
      | .undef => p.nextAvailability
      | x => toDateValue x
    status := updates.status.getD p.status
    onboardedBy :=
      match updates.onboardedBy with
      | .undef => p.onboardedBy
      | x => x.toOption
    onboardedAt :=
      match updates.onboardedAt with
      | .undef => p.onboardedAt
      | x => x.toOption
    updatedAt := now }

/-- `updateProviderProfileRecord`: `UPDATE ... WHERE id = profileId RETURNING`;
the first returned row (or `none` when nothing matched). -/
def updateProviderProfileRecord (profileId : String)
    (updates : ProviderProfileUpdateInput) (now : Nat) (db : Db) :
    Option ProviderProfileRow × Db :=
  let updatedRows :=
    (db.providerProfiles.filter (fun p => p.id == profileId)).map (applyProfileUpdate updates now)
  (updatedRows.head?,
   { db with
      providerProfiles :=
        db.providerProfiles.map
          (fun p => if p.id == profileId then applyProfileUpdate updates now p else p) })

/-! ## providerDocumentsService -/

/-- `ProviderDocumentInput`. -/
structure ProviderDocumentInput where
  providerId : String
  documentType : String
  fileUrl : String
  storageKey : Option String
  fileName : Option String
  mimeType : Option String
  fileSize : Option Int
  uploadedBy : Option String
  deriving DecidableEq, Repr

/-- `insertProviderDocuments`: empty input is a no-op returning `[]`;
otherwise a batch insert.  `newIds` supplies the per-row `randomUUID()`. -/
def insertProviderDocuments (documents : List ProviderDocumentInput)
    (newIds : List String) (db : Db) : List ProviderDocumentRow × Db :=
  if documents.isEmpty then ([], db)
  else
    let withIds := documents.zipWith
      (fun doc docId => ProviderDocumentRow.mk docId doc.providerId doc.documentType
        doc.storageKey doc.fileUrl doc.fileName doc.mimeType doc.fileSize doc.uploadedBy)
      newIds
    (withIds, { db with providerDocuments := db.providerDocuments ++ withIds })

/-- `getProviderDocuments`. -/
def getProviderDocuments (providerId : String) (db : Db) : List ProviderDocumentRow :=
  db.providerDocuments.filter (fun d => d.providerId == providerId)

/-- `deleteProviderDocumentRecord`: select requiring both ids, return `null`
on miss, otherwise delete with the same double condition and return the row. -/
def deleteProviderDocumentRecord (providerId documentId : String) (db : Db) :
    Option ProviderDocumentRow × Db :=
  match (db.providerDocuments.filter
      (fun d => d.id == documentId && d.providerId == providerId)).head? with
  | none => (none, db)
  | some existing =>
    (some existing,
     { db with
        providerDocuments :=
          db.providerDocuments.filter
            (fun d => !(d.id == documentId && d.providerId == providerId)) })

/-! ## Role middleware (middlewares/roleAuth.ts) -/

/-- What a role middleware sees of the request. -/
structure MwRequest where
  user : Option AuthUser
  paramUserId : Option String
  deriving DecidableEq, Repr

/-- A middleware either calls `next()` or ends the request with a status,
error code and message. -/
inductive MwOutcome where
  | next
  | respond (status : Nat) (code : String) (message : String)
  deriving DecidableEq, Repr

/-- `hasRole(requiredRoles)`: any-of membership. -/
def hasRole (requiredRoles : List String) (req : MwRequest) : MwOutcome :=
  match req.user with
  | none => .respond 401 "UNAUTHENTICATED" "Authentication required"
  | some u =>
    if requiredRoles.any (fun role => u.roles.contains role) then .next
    else
      .respond 403 "INSUFFICIENT_PERMISSIONS"
        ("Access denied. Required roles: " ++ String.intercalate " or " requiredRoles)

/-- `hasAllRoles(requiredRoles)`: all-of membership. -/
def hasAllRoles (requiredRoles : List String) (req : MwRequest) : MwOutcome :=
  match req.user with
  | none => .respond 401 "UNAUTHENTICATED" "Authentication required"
  | some u =>
    if requiredRoles.all (fun role => u.roles.contains role) then .next
    else
      .respond 403 "INSUFFICIENT_PERMISSIONS"
        ("Access denied. Required roles: " ++ String.intercalate " and " requiredRoles)

/-- `isOwnerOrAdmin`: admin or `req.params.userId` equals the caller's id
(`undefined` params never compare equal to a string id). -/
def isOwnerOrAdmin (req : MwRequest) : MwOutcome :=
  match req.user with
  | none => .respond 401 "UNAUTHENTICATED" "Authentication required"
  | some u =>
    if u.roles.contains "administrator" ||
        (match req.paramUserId with
         | some target => u.userId == target
         | none => false) then
      .next
    else
      .respond 403 "INSUFFICIENT_PERMISSIONS"
        "Access denied. You can only access your own resources"

/-- `isProviderOrAdmin`. -/
def isProviderOrAdmin (req : MwRequest) : MwOutcome :=
  match req.user with
  | none => .respond 401 "UNAUTHENTICATED" "Authentication required"
  | some u =>
    if u.roles.contains "administrator" || u.roles.contains "provider" then .next
    else
      .respond 403 "INSUFFICIENT_PERMISSIONS"
        "Access denied. Provider or administrator role required"

/-! ## authController: register -/

/-- `POST /api/auth/register` body (post-parse). -/
structure RegisterBody where
  firstName : String
  lastName : String
  email : String
  password : String
  confirmPassword : String
  deriving DecidableEq, Repr

/-- The Joi `registerSchema` (authController): required nonempty strings with
max lengths, email format, password min 8, confirmation equal. -/
def registerValidate (b : RegisterBody) : Bool :=
  !b.firstName.isEmpty && b.firstName.length ≤ 100 &&
  !b.lastName.isEmpty && b.lastName.length ≤ 100 &&
  isValidEmail b.email &&
  8 ≤ b.password.length &&
  b.confirmPassword == b.password

/-- Result of `register`. -/
inductive RegisterResult where
  | err (status : Nat) (code : String)
  | ok (user : UserRow) (rolesOut : List String) (authToken : TokenPayload)
  deriving DecidableEq, Repr

/-- Insert one of the default roles unless its unique name exists
(`onConflictDoNothing` of the bootstrap insert, row by row). -/
def insertRoleIfAbsent (name : String) (db : Db) : Db :=
  if db.roles.any (fun r => r.name == name) then db
  else
    { db with
        roles := db.roles ++ [⟨db.nextRoleId, name, none⟩],
        nextRoleId := db.nextRoleId + 1 }

/-- The customer-role lookup of `register`: select by name and, on a miss,
bootstrap the three default roles (`onConflictDoNothing`, row by row) and
retry the select. -/
def customerRoleLookup (db1 : Db) : Option RoleRow × Db :=
  match (db1.roles.filter (fun r => r.name == "customer")).head? with
  | some r => (some r, db1)
  | none =>
    let dbc : Db := insertRoleIfAbsent "administrator"
      (insertRoleIfAbsent "provider" (insertRoleIfAbsent "customer" db1))
    ((dbc.roles.filter (fun r => r.name == "customer")).head?, dbc)

/-- `register` (authController): validate, reject duplicate email, insert the
user, look up (bootstrapping if needed) the `customer` role, assign it, and
issue a token.  The `!roleId` truthiness test of the source is kept as an
`id == 0` check. -/
def register (env : Env) (db : Db) (newUserId : String) (body : RegisterBody) :
    RegisterResult × Db :=
  if !registerValidate body then (.err 400 "VALIDATION_ERROR", db)
  else if !(db.users.filter (fun u => u.email == strToLower body.email)).isEmpty then
    (.err 409 "USER_EXISTS", db)
  else
    let hashedPassword := hashPassword body.password
    let newUser : UserRow :=
      ⟨newUserId, strToLower body.email, hashedPassword, body.firstName, body.lastName⟩
    let db1 := { db with users := db.users ++ [newUser] }
    match customerRoleLookup db1 with
    | (none, db2) => (.err 500 "ROLE_ASSIGNMENT_FAILED", db2)
    | (some role, db2) =>
      if role.id == 0 then (.err 500 "ROLE_ASSIGNMENT_FAILED", db2)
      else
        let db3 := { db2 with userRoles := db2.userRoles ++ [⟨newUser.id, role.id⟩] }
        match generateToken env.jwtSecret newUser.id ["customer"] with
        | none => (.err 500 "INTERNAL_ERROR", db3)
        | some tok => (.ok newUser ["customer"] tok, db3)

/-! ## recruitersController -/

/-- `POST /api/recruiters/register` body (post-parse). -/
structure RegisterRecruiterBody where
  fullName : String
  email : String
  password : String
  confirmPassword : String
  phone : String
  city : String
  token : Option String
  latitude : Option Int
  longitude : Option Int
  avatarUrl : Option String
  deriving DecidableEq, Repr

/-- The Joi `registerRecruiterSchema`: lengths, email/uuid/uri formats,
password upper+lower+digit with min 8, confirmation equal, geo ranges. -/
def registerRecruiterValidate (b : RegisterRecruiterBody) : Bool :=
  2 ≤ b.fullName.length && b.fullName.length ≤ 120 &&
  isValidEmail b.email &&
  8 ≤ b.password.length &&
  b.password.data.any Char.isLower && b.password.data.any Char.isUpper &&
  b.password.data.any Char.isDigit &&
  b.confirmPassword == b.password &&
  7 ≤ b.phone.length && b.phone.length ≤ 30 &&
  !b.city.isEmpty && b.city.length ≤ 100 &&
  (match b.token with
   | none => true
   | some t => uuidFormatOk t) &&
  (match b.latitude with
   | none => true
   | some v => -90 ≤ v && v ≤ 90) &&
  (match b.longitude with
   | none => true
   | some v => -180 ≤ v && v ≤ 180) &&
  (match b.avatarUrl with
   | none => true
   | some u => uriFormatOk u)

/-- `invitation.expiresAt && invitation.expiresAt < new Date()`. -/
def inviteExpired (inv : InvitationRow) (now : Nat) : Bool :=
  match inv.expiresAt with
  | some e => decide (e < now)
  | none => false

/-- Result of `registerRecruiter`. -/
inductive RegisterRecruiterResult where
  | err (status : Nat) (code : String)
  | ok (user : UserRow) (rolesOut : List String) (recruiter : RecruiterRow)
      (authToken : TokenPayload)
  deriving DecidableEq, Repr

/-- `getRecruiterRoleId` (recruitersController): like `ensureRoleId` but with
the recruiter description and a plain insert. -/
def getRecruiterRoleId (db : Db) : Nat × Db :=
  match db.roles.filter (fun r => r.name == "recruiter") with
  | r :: _ => (r.id, db)
  | [] =>
    (db.nextRoleId,
     { db with
        roles := db.roles ++
          [⟨db.nextRoleId, "recruiter",
            some "Offline recruiter responsible for onboarding service providers"⟩],
        nextRoleId := db.nextRoleId + 1 })

/-- `registerRecruiter`: validate; when a token is supplied, require a pending
invitation with that token, a matching email and no expiry; reject duplicate
accounts; then create the user, the role link, the recruiter row (status
`active` iff invited), the audit event, and mark the invitation accepted
before issuing the auth token. -/
def registerRecruiter (env : Env) (db : Db) (now : Nat)
    (newUserId newRecruiterId : String) (body : RegisterRecruiterBody) :
    RegisterRecruiterResult × Db :=
  if !registerRecruiterValidate body then (.err 400 "VALIDATION_ERROR", db)
  else
    let normalizedEmail := strToLower body.email
    let tokenStep : RegisterRecruiterResult ⊕ Option String :=
      match body.token with
      | none => .inr none
      | some t =>
        match (db.recruiterInvitations.filter
            (fun i => i.token == t && i.status == "pending")).head? with
        | none => .inl (.err 400 "INVALID_INVITE_TOKEN")
        | some invitation =>
          if strToLower invitation.email ≠ normalizedEmail then
            .inl (.err 400 "INVITE_EMAIL_MISMATCH")
          else if inviteExpired invitation now then
            .inl (.err 400 "INVITE_EXPIRED")
          else
            .inr (some invitation.id)
    match tokenStep with
    | .inl e => (e, db)
    | .inr invitationId =>
      if !(db.users.filter (fun u => u.email == normalizedEmail)).isEmpty then
        (.err 409 "USER_EXISTS", db)
      else
        let passwordHash := hashPassword body.password
        let (recruiterRoleId, db1) := getRecruiterRoleId db
        let (firstName, lastName) := splitFullName body.fullName
        let user : UserRow := ⟨newUserId, normalizedEmail, passwordHash, firstName, lastName⟩
        let db2 := { db1 with users := db1.users ++ [user] }
        let db3 := { db2 with userRoles := db2.userRoles ++ [UserRoleRow.mk user.id recruiterRoleId] }
        let recruiterStatus := if body.token.isSome then "active" else "pending"
        let recruiter : RecruiterRow :=
          ⟨newRecruiterId, user.id, sanitizeString body.phone, sanitizeString body.city,
           recruiterStatus, body.latitude, body.longitude, body.avatarUrl⟩
        let db4 := { db3 with recruiters := db3.recruiters ++ [recruiter] }
        let db5 :=
          { db4 with
              recruiterEvents := db4.recruiterEvents ++
                [RecruiterEventRow.mk recruiter.id "recruiter_registered"
                  [("viaInvitation", toString body.token.isSome), ("city", recruiter.city)]] }
        let db6 :=
          match invitationId with
          | some invId =>
            { db5 with
                recruiterInvitations :=
                  db5.recruiterInvitations.map
                    (fun i =>
                      if i.id == invId then
                        { i with status := "accepted", acceptedAt := some now }
                      else i) }
          | none => db5
        match generateToken env.jwtSecret user.id ["recruiter"] with
        | none => (.err 500 "INTERNAL_ERROR", db6)
        | some tok => (.ok user ["recruiter"] recruiter tok, db6)

/-- Result of `revokeRecruiterInvitation`. -/
inductive RevokeResult where
  | err (status : Nat) (code : String)
  | ok (id : String)
  deriving DecidableEq, Repr

/-- `PATCH /api/recruiters/invitations/:id/revoke`: missing id → 400, unknown
id → 404, already accepted → 400; otherwise stamp `revoked`/`revokedAt`. -/
def revokeRecruiterInvitation (db : Db) (id : String) (now : Nat) : RevokeResult × Db :=
  if id.isEmpty then (.err 400 "INVITATION_ID_REQUIRED", db)
  else
    match (db.recruiterInvitations.filter (fun i => i.id == id)).head? with
    | none => (.err 404 "INVITATION_NOT_FOUND", db)
    | some invitation =>
      if invitation.status == "accepted" then (.err 400 "INVITE_ALREADY_ACCEPTED", db)
      else
        (.ok id,
         { db with
            recruiterInvitations :=
              db.recruiterInvitations.map
                (fun i =>
                  if i.id == id then { i with status := "revoked", revokedAt := some now }
                  else i) })

/-! ## profilesController: offline provider onboarding -/

/-- One entry of the `documents` array of the create-provider body. -/
structure DocPayload where
  documentType : String
  fileUrl : String
  storageKey : Option String
  fileName : Option String
  mimeType : Option String
  fileSize : Option Int
  deriving DecidableEq, Repr

/-- `POST /api/offline/providers` body (post-parse). -/
structure CreateProviderBody where
  fullName : String
  email : String
  phone : String
  serviceCategory : String
  city : String
  pricePerHour : JsOpt Int
  fullAddress : JsOpt String
  bio : JsOpt String
  profilePictureUrl : JsOpt String
  recruiterId : Option String
  latitude : JsOpt Int
  longitude : JsOpt Int
  documents : Option (List DocPayload)
  deriving DecidableEq, Repr

/-- One document entry of the Joi `createProviderSchema`. -/
def docPayloadValidate (d : DocPayload) : Bool :=
  !d.documentType.isEmpty && d.documentType.length ≤ 50 &&
  uriFormatOk d.fileUrl &&
  (match d.storageKey with
   | none => true
   | some s => s.length ≤ 500) &&
  (match d.fileName with
   | none => true
   | some s => s.length ≤ 255) &&
  (match d.mimeType with
   | none => true
   | some s => s.length ≤ 180) &&
  (match d.fileSize with
   | none => true
   | some n => 0 ≤ n)

/-- The Joi `createProviderSchema`. -/
def createProviderValidate (b : CreateProviderBody) : Bool :=
  !b.fullName.isEmpty && b.fullName.length ≤ 120 &&
  isValidEmail b.email &&
  !b.phone.isEmpty && b.phone.length ≤ 30 &&
  !b.serviceCategory.isEmpty && b.serviceCategory.length ≤ 100 &&
  !b.city.isEmpty && b.city.length ≤ 120 &&
  (match b.pricePerHour with
   | .undef => true
   | .null => true
   | .val n => 0 ≤ n) &&
  (match b.fullAddress with
   | .undef => true
   | .null => true
   | .val s => s.length ≤ 255) &&
  (match b.bio with
   | .undef => true
   | .null => true
   | .val s => s.length ≤ 1000) &&
  (match b.profilePictureUrl with
   | .undef => true
   | .null => true
   | .val s => s.isEmpty || uriFormatOk s) &&
  (match b.recruiterId with
   | none => true
   | some s => uuidFormatOk s) &&
  (match b.latitude with
   | .undef => true
   | .null => true
   | .val v => -90 ≤ v && v ≤ 90) &&
  (match b.longitude with
   | .undef => true
   | .null => true
   | .val v => -180 ≤ v && v ≤ 180) &&
  (match b.documents with
   | none => true
   | some ds => ds.all docPayloadValidate)

/-- `resolveRecruiterId` (profilesController): recruiter role wins and uses
the caller's own recruiter row; otherwise an administrator must supply a
valid `recruiterId`; otherwise the caller is rejected. -/
def resolveRecruiterId (db : Db) (user : AuthUser) (bodyRecruiterId : Option String) :
    Except String String :=
  let isAdmin := user.roles.contains "administrator"
  let isRecruiter := user.roles.contains "recruiter"
  if isRecruiter then
    match (db.recruiters.filter (fun r => r.userId == user.userId)).head? with
    | none => .error "RECRUITER_PROFILE_NOT_FOUND"
    | some r => .ok r.id
  else if isAdmin then
    match bodyRecruiterId with
    | none => .error "RECRUITER_ID_REQUIRED"
    | some rid =>
      if ((db.recruiters.filter (fun r => r.id == rid)).head?).isNone then
        .error "RECRUITER_NOT_FOUND"
      else .ok rid
  else .error "INSUFFICIENT_PERMISSIONS"

/-- Result of `createOfflineProvider`. -/
inductive CreateProviderResult where
  | err (status : Nat) (code : String)
  | ok (provider : ProviderProfileRow) (user : UserRow) (temporaryPassword : Option String)
  deriving DecidableEq, Repr

/-- The tail of `createOfflineProvider` shared by the fresh-user and
existing-user paths: ensure the provider role link, resolve/create the
category, build the synthesized business name, create the `pending` profile
stamped with the recruiter, persist the documents, log the audit event. -/
def finishOfflineProvider (db : Db) (now : Nat) (recruiterId : String)
    (providerRoleId : Nat) (u : UserRow) (temporaryPassword : Option String)
    (newProfileId : String) (newDocIds : List String) (body : CreateProviderBody) :
    CreateProviderResult × Db :=
  let db2 := ensureUserHasRole u.id providerRoleId db
  let (categoryId, db3) := ensureCategoryByName body.serviceCategory db2
  let (firstName, lastName) := splitFullName body.fullName
  let businessName :=
    jsTrim (sanitizeString body.fullName ++ " " ++ sanitizeString body.serviceCategory ++ " Services")
  let input : ProviderProfileCreateInput :=
    { userId := u.id
      firstName := firstName
      lastName := lastName
      businessName := businessName
      description :=
        match body.bio with
        | .val s => if s.isEmpty then .null else .val (sanitizeString s)
        | _ => .null
      profilePictureURL :=
        match body.profilePictureUrl with
        | .val s => .val s
        | _ => .null
      serviceTitle := sanitizeString body.serviceCategory
      categoryId :=
        match categoryId with
        | some cid => .val cid
        | none => .null
      pricePerHour :=
        match body.pricePerHour with
        | .undef => .undef
        | .null => .null
        | .val n => .val (.num n)
      locationString := .val (sanitizeString body.city)
      fullAddress :=
        match body.fullAddress with
        | .val s => if s.isEmpty then .null else .val (sanitizeString s)
        | _ => .null
      contactPhone := .val (sanitizeString body.phone)
      latitude :=
        match body.latitude with
        | .undef => .undef
        | .null => .null
        | .val n => .val (.num n)
      longitude :=
        match body.longitude with
        | .undef => .undef
        | .null => .null
        | .val n => .val (.num n)
      portfolioImageURLs := .undef
      nextAvailability := .undef
      status := some "pending"
      onboardedBy := .val recruiterId
      onboardedAt := .val now }
  let (provider, db4) := createProviderProfileRecord input newProfileId now db3
  let db5 :=
    match body.documents with
    | some docs =>
      if docs.isEmpty then db4
      else
        (insertProviderDocuments
          (docs.map (fun (doc : DocPayload) =>
            ProviderDocumentInput.mk provider.id doc.documentType doc.fileUrl doc.storageKey
              doc.fileName doc.mimeType doc.fileSize (some recruiterId)))
          newDocIds db4).2
    | none => db4
  let db6 :=
    { db5 with
        recruiterEvents := db5.recruiterEvents ++
          [RecruiterEventRow.mk recruiterId "provider_onboarded"
            [("providerId", provider.id), ("serviceCategory", body.serviceCategory)]] }
  (.ok provider u temporaryPassword, db6)

/-- `createOfflineProvider`: auth check, validation, recruiter resolution
(mapping `INSUFFICIENT_PERMISSIONS` to 403 and the other resolution errors to
400), then either fresh-user creation with a temporary password
(`PROVIDER_TEMPPASSWORD` or a random 12-char string) or the existing-user
path guarded by the one-profile-per-user 409. -/
def createOfflineProvider (env : Env) (db : Db) (now : Nat) (reqUser : Option AuthUser)
    (randoms : Nat → Nat) (newUserId newProfileId : String) (newDocIds : List String)
    (body : CreateProviderBody) : CreateProviderResult × Db :=
  match reqUser with
  | none => (.err 401 "UNAUTHENTICATED", db)
  | some user =>
    if !createProviderValidate body then (.err 400 "VALIDATION_ERROR", db)
    else
      match resolveRecruiterId db user body.recruiterId with
      | .error code =>
        (.err (if code == "INSUFFICIENT_PERMISSIONS" then 403 else 400) code, db)
      | .ok recruiterId =>
        let normalizedEmail := strToLower body.email
        let (providerRoleId, db1) := ensureRoleId "provider" "Service provider role" db
        let (firstName, lastName) := splitFullName body.fullName
        match (db1.users.filter (fun u => u.email == normalizedEmail)).head? with
        | none =>
          let temporaryPassword :=
            match env.providerTempPassword with
            | some p => p
            | none => generateRandomString 12 randoms
          let passwordHash := hashPassword temporaryPassword
          let user' : UserRow :=
            ⟨newUserId, normalizedEmail, passwordHash, firstName, lastName⟩
          let db2 := { db1 with users := db1.users ++ [user'] }
          finishOfflineProvider db2 now recruiterId providerRoleId user'
            (some temporaryPassword) newProfileId newDocIds body
        | some existingUser =>
          if !(db1.providerProfiles.filter (fun p => p.userId == existingUser.id)).isEmpty then
            (.err 409 "PROVIDER_EXISTS", db1)
          else
            finishOfflineProvider db1 now recruiterId providerRoleId existingUser
              none newProfileId newDocIds body

/-- Result of the delete-document endpoint. -/
inductive DeleteDocumentResult where
  | err (status : Nat) (code : String)
  | ok (id : String)
  deriving DecidableEq, Repr

/-- `DELETE /api/offline/providers/:providerId/documents/:documentId`: 404
`DOCUMENT_NOT_FOUND` on a miss, otherwise success (the stored-file deletion is
an external side effect with no database footprint). -/
def deleteProviderDocument (db : Db) (providerId documentId : String) :
    DeleteDocumentResult × Db :=
  match deleteProviderDocumentRecord providerId documentId db with
  | (none, db') => (.err 404 "DOCUMENT_NOT_FOUND", db')
  | (some _, db') => (.ok documentId, db')

/-! ## Supporting lemmas -/

theorem likeMatches_pct (ps ts : List Char) (h : likeMatches ps ts = true) :
    likeMatches ('%' :: ps) ts = true := by
  cases ts with
  | nil => simpa [likeMatches] using h
  | cons c ts' => simp [likeMatches, h]

theorem likeMatches_self (l : List Char) : likeMatches l l = true := by
  induction l with
  | nil => simp [likeMatches]
  | cons p l ih =>
    by_cases hp : p = '%'
    · subst hp
      have h2 := likeMatches_pct l l ih
      simp [likeMatches, h2]
    · by_cases hu : p = '_'
      · subst hu
        simp [likeMatches, ih]
      · simp [likeMatches, hp, hu, ih]

theorem matchesIlike_self (s : String) : matchesIlike s s = true :=
  likeMatches_self _

theorem matchesIlike_pattern_congr (x p1 p2 : String) (h : strToLower p1 = strToLower p2) :
    matchesIlike x p1 = matchesIlike x p2 := by
  unfold matchesIlike
  rw [h]

theorem matchesIlike_of_toLower_eq (a b : String) (h : strToLower a = strToLower b) :
    matchesIlike a b = true := by
  unfold matchesIlike
  rw [h]
  exact likeMatches_self _

theorem stringIsEmpty_false_of_ne (s : String) (h : s ≠ "") : s.isEmpty = false := by
  rw [Bool.eq_false_iff]
  intro hh
  exact h ((String.isEmpty_iff s).mp hh)

theorem ensureRoleId_users (n d : String) (db : Db) :
    ((ensureRoleId n d db).2).users = db.users := by
  unfold ensureRoleId
  cases db.roles.filter (fun r => r.name == n) <;> rfl

theorem ensureRoleId_userRoles (n d : String) (db : Db) :
    ((ensureRoleId n d db).2).userRoles = db.userRoles := by
  unfold ensureRoleId
  cases db.roles.filter (fun r => r.name == n) <;> rfl

theorem ensureRoleId_providerProfiles (n d : String) (db : Db) :
    ((ensureRoleId n d db).2).providerProfiles = db.providerProfiles := by
  unfold ensureRoleId
  cases db.roles.filter (fun r => r.name == n) <;> rfl

theorem ensureRoleId_recruiters (n d : String) (db : Db) :
    ((ensureRoleId n d db).2).recruiters = db.recruiters := by
  unfold ensureRoleId
  cases db.roles.filter (fun r => r.name == n) <;> rfl

/-- The id `ensureRoleId` returns names a role row with the requested name in
the resulting state. -/
theorem ensureRoleId_spec (n d : String) (db : Db) :
    ∃ r ∈ ((ensureRoleId n d db).2).roles,
      r.id = (ensureRoleId n d db).1 ∧ r.name = n := by
  unfold ensureRoleId
  cases hf : db.roles.filter (fun r => r.name == n) with
  | nil =>
    refine ⟨⟨db.nextRoleId, n, some d⟩, ?_, rfl, rfl⟩
    simp
  | cons r rest =>
    have hr : r ∈ db.roles.filter (fun q => q.name == n) := by
      rw [hf]; exact List.mem_cons_self _ _
    have := List.mem_filter.mp hr
    refine ⟨r, this.1, rfl, ?_⟩
    simpa using this.2

theorem getRecruiterRoleId_invitations (db : Db) :
    ((getRecruiterRoleId db).2).recruiterInvitations = db.recruiterInvitations := by
  unfold getRecruiterRoleId
  cases db.roles.filter (fun r => r.name == "recruiter") <;> rfl

theorem getRecruiterRoleId_users (db : Db) :
    ((getRecruiterRoleId db).2).users = db.users := by
  unfold getRecruiterRoleId
  cases db.roles.filter (fun r => r.name == "recruiter") <;> rfl

theorem insertRoleIfAbsent_users (n : String) (db : Db) :
    (insertRoleIfAbsent n db).users = db.users := by
  unfold insertRoleIfAbsent
  split <;> rfl

theorem insertRoleIfAbsent_userRoles (n : String) (db : Db) :
    (insertRoleIfAbsent n db).userRoles = db.userRoles := by
  unfold insertRoleIfAbsent
  split <;> rfl

theorem ensureUserHasRole_users (uid : String) (rid : Nat) (db : Db) :
    (ensureUserHasRole uid rid db).users = db.users := by
  unfold ensureUserHasRole
  split <;> rfl

theorem ensureUserHasRole_roles (uid : String) (rid : Nat) (db : Db) :
    (ensureUserHasRole uid rid db).roles = db.roles := by
  unfold ensureUserHasRole
  split <;> rfl

theorem ensureUserHasRole_providerProfiles (uid : String) (rid : Nat) (db : Db) :
    (ensureUserHasRole uid rid db).providerProfiles = db.providerProfiles := by
  unfold ensureUserHasRole
  split <;> rfl

theorem ensureCategoryByName_users (n : String) (db : Db) :
    ((ensureCategoryByName n db).2).users = db.users := by
  unfold ensureCategoryByName
  dsimp only
  split
  · rfl
  · split
    · rfl
    · split
      · rfl
      · rfl

theorem ensureCategoryByName_userRoles (n : String) (db : Db) :
    ((ensureCategoryByName n db).2).userRoles = db.userRoles := by
  unfold ensureCategoryByName
  dsimp only
  split
  · rfl
  · split
    · rfl
    · split
      · rfl
      · rfl

theorem ensureCategoryByName_roles (n : String) (db : Db) :
    ((ensureCategoryByName n db).2).roles = db.roles := by
  unfold ensureCategoryByName
  dsimp only
  split
  · rfl
  · split
    · rfl
    · split
      · rfl
      · rfl

theorem ensureCategoryByName_providerProfiles (n : String) (db : Db) :
    ((ensureCategoryByName n db).2).providerProfiles = db.providerProfiles := by
  unfold ensureCategoryByName
  dsimp only
  split
  · rfl
  · split
    · rfl
    · split
      · rfl
      · rfl

theorem insertProviderDocuments_users (docs : List ProviderDocumentInput)
    (ids : List String) (db : Db) :
    ((insertProviderDocuments docs ids db).2).users = db.users := by
  unfold insertProviderDocuments
  split <;> rfl

theorem insertProviderDocuments_userRoles (docs : List ProviderDocumentInput)
    (ids : List String) (db : Db) :
    ((insertProviderDocuments docs ids db).2).userRoles = db.userRoles := by
  unfold insertProviderDocuments
  split <;> rfl

theorem insertProviderDocuments_roles (docs : List ProviderDocumentInput)
    (ids : List String) (db : Db) :
    ((insertProviderDocuments docs ids db).2).roles = db.roles := by
  unfold insertProviderDocuments
  split <;> rfl

theorem insertProviderDocuments_providerProfiles (docs : List ProviderDocumentInput)
    (ids : List String) (db : Db) :
    ((insertProviderDocuments docs ids db).2).providerProfiles = db.providerProfiles := by
  unfold insertProviderDocuments
  split <;> rfl

/-! ## Claim C7 -/

/-- Claim C7 (amended): each role-predicate middleware answers 401
`UNAUTHENTICATED` when no identity is attached and 403
`INSUFFICIENT_PERMISSIONS` when its predicate fails for an authenticated
request.  `hasRole` and `hasAllRoles` include the required-role set in the
failure message and `isProviderOrAdmin` names the provider/administrator
roles, but `isOwnerOrAdmin`'s failure message is a fixed sentence that does
not mention the required roles. -/
theorem c7_role_middleware_failure_responses :
    (∀ (rs : List String) (u : AuthUser) (pid : Option String),
      rs.any (fun role => u.roles.contains role) = false →
      hasRole rs ⟨some u, pid⟩ =
        .respond 403 "INSUFFICIENT_PERMISSIONS"
          ("Access denied. Required roles: " ++ String.intercalate " or " rs)) ∧
    (∀ (rs : List String) (u : AuthUser) (pid : Option String),
      rs.all (fun role => u.roles.contains role) = false →
      hasAllRoles rs ⟨some u, pid⟩ =
        .respond 403 "INSUFFICIENT_PERMISSIONS"
          ("Access denied. Required roles: " ++ String.intercalate " and " rs)) ∧
    (∀ (u : AuthUser) (pid : Option String),
      u.roles.contains "administrator" = false →
      (match pid with
       | some target => u.userId == target
       | none => false) = false →
      isOwnerOrAdmin ⟨some u, pid⟩ =
        .respond 403 "INSUFFICIENT_PERMISSIONS"
          "Access denied. You can only access your own resources") ∧
    (∀ (u : AuthUser) (pid : Option String),
      u.roles.contains "administrator" = false →
      u.roles.contains "provider" = false →
      isProviderOrAdmin ⟨some u, pid⟩ =
        .respond 403 "INSUFFICIENT_PERMISSIONS"
          "Access denied. Provider or administrator role required") ∧
    (∀ (rs : List String) (pid : Option String),
      hasRole rs ⟨none, pid⟩ = .respond 401 "UNAUTHENTICATED" "Authentication required" ∧
      hasAllRoles rs ⟨none, pid⟩ = .respond 401 "UNAUTHENTICATED" "Authentication required" ∧
      isOwnerOrAdmin ⟨none, pid⟩ = .respond 401 "UNAUTHENTICATED" "Authentication required" ∧
      isProviderOrAdmin ⟨none, pid⟩ = .respond 401 "UNAUTHENTICATED" "Authentication required") := by
  refine ⟨?_, ?_, ?_, ?_, ?_⟩
  · intro rs u pid h
    simp only [hasRole]
    rw [h]
    rfl
  · intro rs u pid h
    simp only [hasAllRoles]
    rw [h]
    rfl
  · intro u pid hadm hown
    simp only [isOwnerOrAdmin]
    rw [hadm, hown]
    rfl
  · intro u pid hadm hprov
    simp only [isProviderOrAdmin]
    rw [hadm, hprov]
    rfl
  · intro rs pid
    exact ⟨rfl, rfl, rfl, rfl⟩

/-- Claim C7 witness: concrete failing and unauthenticated requests. -/
theorem c7_role_middleware_failure_responses_witness :
    hasRole ["administrator"] ⟨some ⟨"u1", ["customer"]⟩, none⟩ =
      .respond 403 "INSUFFICIENT_PERMISSIONS" "Access denied. Required roles: administrator" ∧
    hasAllRoles ["recruiter", "administrator"] ⟨some ⟨"u1", ["recruiter"]⟩, none⟩ =
      .respond 403 "INSUFFICIENT_PERMISSIONS"
        "Access denied. Required roles: recruiter and administrator" ∧
    isProviderOrAdmin ⟨some ⟨"u1", ["customer"]⟩, none⟩ =
      .respond 403 "INSUFFICIENT_PERMISSIONS"
        "Access denied. Provider or administrator role required" ∧
    hasRole ["administrator"] ⟨none, none⟩ =
      .respond 401 "UNAUTHENTICATED" "Authentication required" := by
  refine ⟨?_, ?_, ?_, ?_⟩
  · exact c7_role_middleware_failure_responses.1 ["administrator"] ⟨"u1", ["customer"]⟩ none
      (by decide)
  · exact c7_role_middleware_failure_responses.2.1 ["recruiter", "administrator"]
      ⟨"u1", ["recruiter"]⟩ none (by decide)
  · exact c7_role_middleware_failure_responses.2.2.2.1 ⟨"u1", ["customer"]⟩ none
      (by decide) (by decide)
  · exact (c7_role_middleware_failure_responses.2.2.2.2 ["administrator"] none).1

/-- Claim C7 counterexample: `isOwnerOrAdmin` does fail with 403
`INSUFFICIENT_PERMISSIONS`, but its message contains no role name at all, so
the claim that every role-predicate middleware "includes the required-role
set in the error message" is false at this input. -/
theorem c7_owner_or_admin_message_counterexample :
    isOwnerOrAdmin ⟨some ⟨"u1", ["customer"]⟩, some "u2"⟩ =
      .respond 403 "INSUFFICIENT_PERMISSIONS"
        "Access denied. You can only access your own resources" ∧
    strContains "Access denied. You can only access your own resources" "administrator" = false ∧
    strContains "Access denied. You can only access your own resources" "provider" = false ∧
    strContains "Access denied. You can only access your own resources" "recruiter" = false ∧
    strContains "Access denied. You can only access your own resources" "customer" = false := by
  refine ⟨rfl, ?_, ?_, ?_, ?_⟩ <;> decide

/-! ## Claim C4 -/

/-- Claim C4: `deleteProviderDocumentRecord` deletes only a row matching both
ids and returns that row; rows of other providers always survive; a miss
returns `null` and the endpoint answers 404 `DOCUMENT_NOT_FOUND`; and after
the call the document id no longer appears among the provider's documents. -/
theorem c4_delete_document_scoped :
    (∀ (db : Db) (pid did : String) (doc : ProviderDocumentRow),
      (deleteProviderDocumentRecord pid did db).1 = some doc →
      doc ∈ db.providerDocuments ∧ doc.id = did ∧ doc.providerId = pid) ∧
    (∀ (db : Db) (pid did : String),
      db.providerDocuments.filter (fun d => d.id == did && d.providerId == pid) = [] →
      deleteProviderDocumentRecord pid did db = (none, db) ∧
      deleteProviderDocument db pid did = (.err 404 "DOCUMENT_NOT_FOUND", db)) ∧
    (∀ (db : Db) (pid did : String) (r : ProviderDocumentRow),
      r ∈ db.providerDocuments → r.providerId ≠ pid →
      r ∈ ((deleteProviderDocumentRecord pid did db).2).providerDocuments) ∧
    (∀ (db : Db) (pid did : String) (d : ProviderDocumentRow),
      d ∈ getProviderDocuments pid ((deleteProviderDocumentRecord pid did db).2) →
      d.id ≠ did) := by
  refine ⟨?_, ?_, ?_, ?_⟩
  · intro db pid did doc h
    unfold deleteProviderDocumentRecord at h
    cases hf : (db.providerDocuments.filter
        (fun d => d.id == did && d.providerId == pid)).head? with
    | none => rw [hf] at h; simp at h
    | some existing =>
      rw [hf] at h
      simp only [Option.some.injEq] at h
      subst h
      have hmem : existing ∈ db.providerDocuments.filter
          (fun d => d.id == did && d.providerId == pid) := by
        cases hl : db.providerDocuments.filter
            (fun d => d.id == did && d.providerId == pid) with
        | nil => rw [hl] at hf; simp at hf
        | cons x xs =>
          rw [hl] at hf
          simp only [List.head?_cons, Option.some.injEq] at hf
          rw [hf]
          exact List.mem_cons_self _ _
      have := List.mem_filter.mp hmem
      have hp := this.2
      simp only [Bool.and_eq_true, beq_iff_eq] at hp
      exact ⟨this.1, hp.1, hp.2⟩
  · intro db pid did hnil
    have h1 : deleteProviderDocumentRecord pid did db = (none, db) := by
      unfold deleteProviderDocumentRecord
      rw [hnil]
      rfl
    refine ⟨h1, ?_⟩
    unfold deleteProviderDocument
    rw [h1]
  · intro db pid did r hr hne
    unfold deleteProviderDocumentRecord
    cases hf : (db.providerDocuments.filter
        (fun d => d.id == did && d.providerId == pid)).head? with
    | none => simpa using hr
    | some existing =>
      simp only [List.mem_filter]
      refine ⟨hr, ?_⟩
      simp [hne]
  · intro db pid did d hd
    intro hdid
    subst hdid
    unfold getProviderDocuments at hd
    unfold deleteProviderDocumentRecord at hd
    cases hf : (db.providerDocuments.filter
        (fun q => q.id == d.id && q.providerId == pid)).head? with
    | none =>
      rw [hf] at hd
      have hnil : db.providerDocuments.filter
          (fun q => q.id == d.id && q.providerId == pid) = [] := by
        cases hl : db.providerDocuments.filter
            (fun q => q.id == d.id && q.providerId == pid) with
        | nil => rfl
        | cons x xs => rw [hl] at hf; simp at hf
      have hall := List.filter_eq_nil_iff.mp hnil
      have hmem := List.mem_filter.mp hd
      have := hall d hmem.1
      have hpid : d.providerId = pid := by simpa using hmem.2
      simp [hpid] at this
    | some existing =>
      rw [hf] at hd
      have hmem := List.mem_filter.mp hd
      have hin := List.mem_filter.mp hmem.1
      have hneg := hin.2
      have hpid : d.providerId = pid := by simpa using hmem.2
      simp [hpid] at hneg

/-- Claim C4 witness: a one-document database where the scoped delete hits,
the cross-provider delete misses with 404, and the listing afterwards is
clean. -/
theorem c4_delete_document_scoped_witness :
    (⟨"d1", "p1", "id", none, "http://x/y", none, none, none, none⟩ :
        ProviderDocumentRow) ∈
      (Db.mk [] [] [] [] [] [] [] []
        [⟨"d1", "p1", "id", none, "http://x/y", none, none, none, none⟩] 1 1).providerDocuments ∧
    deleteProviderDocument
        (Db.mk [] [] [] [] [] [] [] []
          [⟨"d1", "p1", "id", none, "http://x/y", none, none, none, none⟩] 1 1) "p2" "d1" =
      (.err 404 "DOCUMENT_NOT_FOUND",
        Db.mk [] [] [] [] [] [] [] []
          [⟨"d1", "p1", "id", none, "http://x/y", none, none, none, none⟩] 1 1) := by
  constructor
  · exact List.mem_cons_self _ _
  · exact (c4_delete_document_scoped.2.1
      (Db.mk [] [] [] [] [] [] [] []
        [⟨"d1", "p1", "id", none, "http://x/y", none, none, none, none⟩] 1 1)
      "p2" "d1" (by decide)).2

/-! ## Claim C5 -/

/-- Claim C5: `updateProviderProfileRecord` has sparse-patch semantics: every
field absent (`undefined`) in the partial input keeps its stored value, an
explicit `null` clears the corresponding nullable column, and `updatedAt` is
stamped to the current time. -/
theorem c5_update_profile_sparse_patch :
    ∀ (db : Db) (pid : String) (u : ProviderProfileUpdateInput) (now : Nat)
      (p : ProviderProfileRow),
      db.providerProfiles.filter (fun q => q.id == pid) = [p] →
      ∃ q, (updateProviderProfileRecord pid u now db).1 = some q ∧
        q.updatedAt = now ∧
        q.id = p.id ∧
        q.userId = p.userId ∧
        (u.firstName = none → q.firstName = p.firstName) ∧
        (u.lastName = none → q.lastName = p.lastName) ∧
        (u.businessName = none → q.businessName = p.businessName) ∧
        (u.serviceTitle = none → q.serviceTitle = p.serviceTitle) ∧
        (u.status = none → q.status = p.status) ∧
        (u.description = .undef → q.description = p.description) ∧
        (u.description = .null → q.description = none) ∧
        (u.profilePictureURL = .undef → q.profilePictureURL = p.profilePictureURL) ∧
        (u.profilePictureURL = .null → q.profilePictureURL = none) ∧
        (u.categoryId = .undef → q.categoryId = p.categoryId) ∧
        (u.categoryId = .null → q.categoryId = none) ∧
        (u.pricePerHour = .undef → q.pricePerHour = p.pricePerHour) ∧
        (u.pricePerHour = .null → q.pricePerHour = none) ∧
        (u.locationString = .undef → q.locationString = p.locationString) ∧
        (u.locationString = .null → q.locationString = none) ∧
        (u.fullAddress = .undef → q.fullAddress = p.fullAddress) ∧
        (u.fullAddress = .null → q.fullAddress = none) ∧
        (u.contactPhone = .undef → q.contactPhone = p.contactPhone) ∧
        (u.contactPhone = .null → q.contactPhone = none) ∧
        (u.latitude = .undef → q.latitude = p.latitude) ∧
        (u.latitude = .null → q.latitude = none) ∧
        (u.longitude = .undef → q.longitude = p.longitude) ∧
        (u.longitude = .null → q.longitude = none) ∧
        (u.portfolioImageURLs = .undef → q.portfolioImageURLs = p.portfolioImageURLs) ∧
        (u.portfolioImageURLs = .null → q.portfolioImageURLs = none) ∧
        (u.nextAvailability = .undef → q.nextAvailability = p.nextAvailability) ∧
        (u.nextAvailability = .null → q.nextAvailability = none) ∧
        (u.onboardedBy = .undef → q.onboardedBy = p.onboardedBy) ∧
        (u.onboardedBy = .null → q.onboardedBy = none) ∧
        (u.onboardedAt = .undef → q.onboardedAt = p.onboardedAt) ∧
        (u.onboardedAt = .null → q.onboardedAt = none) := by
  intro db pid u now p hf
  refine ⟨applyProfileUpdate u now p, ?_, rfl, rfl, rfl, ?_, ?_, ?_, ?_, ?_, ?_, ?_, ?_, ?_,
    ?_, ?_, ?_, ?_, ?_, ?_, ?_, ?_, ?_, ?_, ?_, ?_, ?_, ?_, ?_, ?_, ?_, ?_, ?_, ?_, ?_, ?_⟩
  · simp [updateProviderProfileRecord, hf]
  all_goals intro h
  all_goals simp [applyProfileUpdate, h, JsOpt.toOption, toDecimalString, toDateValue]

/-- Claim C5 witness: a concrete profile patched with one explicit null, one
supplied field and everything else absent. -/
theorem c5_update_profile_sparse_patch_witness :
    ∃ q,
      (updateProviderProfileRecord "p1"
          ⟨none, none, some "NewBiz", .null, .undef, none, .undef, .undef, .undef, .undef,
           .undef, .undef, .undef, .undef, .undef, none, .undef, .undef⟩ 42
          (Db.mk [] [] [] [] [] [] []
            [⟨"p1", "u1", "Ann", "Lee", "Biz", some "old", none, "Cleaning", none,
              some "10", some "Metro", none, none, none, none, none, none, "active",
              none, none, 7⟩]
            [] 1 1)).1 = some q ∧
      q.updatedAt = 42 ∧ q.description = none ∧ q.firstName = "Ann" ∧ q.status = "active" := by
  obtain ⟨q, hq, hupd, _hid, _huid, hfn, _hln, _hbn, _hst, _hstatus, _hdu, hdn, rest⟩ :=
    c5_update_profile_sparse_patch
      (Db.mk [] [] [] [] [] [] []
        [⟨"p1", "u1", "Ann", "Lee", "Biz", some "old", none, "Cleaning", none,
          some "10", some "Metro", none, none, none, none, none, none, "active",
          none, none, 7⟩]
        [] 1 1)
      "p1"
      ⟨none, none, some "NewBiz", .null, .undef, none, .undef, .undef, .undef, .undef,
       .undef, .undef, .undef, .undef, .undef, none, .undef, .undef⟩ 42
      ⟨"p1", "u1", "Ann", "Lee", "Biz", some "old", none, "Cleaning", none,
        some "10", some "Metro", none, none, none, none, none, none, "active",
        none, none, 7⟩
      (by decide)
  exact ⟨q, hq, hupd, hdn rfl, hfn rfl, _hstatus rfl⟩

/-! ## Claim C6 -/

/-- Claim C6: `ensureCategoryByName` is idempotent and case-insensitive: for
non-blank names, two successive calls whose arguments differ only in letter
case return the same (non-null) category id both times; when no match exists
the first call creates the category with the default icon and color; blank
input returns null and leaves the state unchanged. -/
theorem c6_ensure_category_idempotent :
    (∀ (db : Db) (n1 n2 : String),
      jsTrim n1 ≠ "" → jsTrim n2 ≠ "" →
      strToLower (jsTrim n1) = strToLower (jsTrim n2) →
      (ensureCategoryByName n2 (ensureCategoryByName n1 db).2).1 =
        (ensureCategoryByName n1 db).1 ∧
      ∃ cid, (ensureCategoryByName n1 db).1 = some cid) ∧
    (∀ (db : Db) (n1 : String),
      jsTrim n1 ≠ "" →
      db.categories.filter (fun c => matchesIlike c.name (jsTrim n1)) = [] →
      (ensureCategoryByName n1 db).2.categories =
        db.categories ++ [⟨db.nextCategoryId, jsTrim n1, "🛠️", "#2563eb"⟩] ∧
      (ensureCategoryByName n1 db).1 = some db.nextCategoryId) ∧
    (∀ (db : Db) (n : String), jsTrim n = "" → ensureCategoryByName n db = (none, db)) := by
  have insertCase :
      ∀ (db : Db) (n1 : String),
        jsTrim n1 ≠ "" →
        db.categories.filter (fun c => matchesIlike c.name (jsTrim n1)) = [] →
        ensureCategoryByName n1 db =
          (some db.nextCategoryId,
            { db with
                categories :=
                  db.categories ++ [⟨db.nextCategoryId, jsTrim n1, "🛠️", "#2563eb"⟩],
                nextCategoryId := db.nextCategoryId + 1 }) := by
    intro db n1 h1 hnil
    have hany : db.categories.any (fun c => c.name == jsTrim n1) = false := by
      rw [List.any_eq_false]
      intro c hc hcn
      have hlike : matchesIlike c.name (jsTrim n1) = true := by
        have : c.name = jsTrim n1 := by simpa using hcn
        rw [this]
        exact matchesIlike_self _
      have : c ∈ db.categories.filter (fun c => matchesIlike c.name (jsTrim n1)) :=
        List.mem_filter.mpr ⟨hc, hlike⟩
      rw [hnil] at this
      simp at this
    unfold ensureCategoryByName
    dsimp only
    rw [stringIsEmpty_false_of_ne _ h1]
    simp only [Bool.false_eq_true, if_false, hnil, List.head?_nil, hany]
  refine ⟨?_, ?_, ?_⟩
  · intro db n1 n2 h1 h2 hL
    have hcong : ∀ (l : List CategoryRow),
        l.filter (fun c => matchesIlike c.name (jsTrim n2)) =
          l.filter (fun c => matchesIlike c.name (jsTrim n1)) := by
      intro l
      exact List.filter_congr (fun x _ => matchesIlike_pattern_congr x.name (jsTrim n2) (jsTrim n1) hL.symm)
    cases hf : (db.categories.filter (fun c => matchesIlike c.name (jsTrim n1))).head? with
    | some c =>
      have hres1 : ensureCategoryByName n1 db = (some c.id, db) := by
        unfold ensureCategoryByName
        dsimp only
        rw [stringIsEmpty_false_of_ne _ h1]
        simp only [Bool.false_eq_true, if_false, hf]
      have hres2 : ensureCategoryByName n2 db = (some c.id, db) := by
        unfold ensureCategoryByName
        dsimp only
        rw [stringIsEmpty_false_of_ne _ h2]
        simp only [Bool.false_eq_true, if_false, hcong, hf]
      rw [hres1]
      exact ⟨by rw [hres2], c.id, rfl⟩
    | none =>
      have hnil : db.categories.filter (fun c => matchesIlike c.name (jsTrim n1)) = [] := by
        cases hl : db.categories.filter (fun c => matchesIlike c.name (jsTrim n1)) with
        | nil => rfl
        | cons x xs => rw [hl] at hf; simp at hf
      have hres1 := insertCase db n1 h1 hnil
      have hfilter2 :
          ((ensureCategoryByName n1 db).2).categories.filter
              (fun c => matchesIlike c.name (jsTrim n2)) =
            [⟨db.nextCategoryId, jsTrim n1, "🛠️", "#2563eb"⟩] := by
        rw [hres1]
        simp only [List.filter_append, hcong, hnil, List.nil_append]
        simp [matchesIlike_self]
      have hres2 :
          ensureCategoryByName n2 ((ensureCategoryByName n1 db).2) =
            (some db.nextCategoryId, (ensureCategoryByName n1 db).2) := by
        rw [hres1] at hfilter2 ⊢
        unfold ensureCategoryByName
        dsimp only
        rw [stringIsEmpty_false_of_ne _ h2]
        dsimp only at hfilter2
        simp only [Bool.false_eq_true, if_false, hfilter2]
        rfl
      refine ⟨?_, db.nextCategoryId, ?_⟩
      · rw [hres2, hres1]
      · rw [hres1]
  · intro db n1 h1 hnil
    have := insertCase db n1 h1 hnil
    rw [this]
    exact ⟨rfl, rfl⟩
  · intro db n h
    unfold ensureCategoryByName
    dsimp only
    rw [h]
    rfl

/-- Claim C6 witness: starting from an empty category table, `"  Plumbing "`
then `"PLUMBING"` both yield id 1, the first call creating the row; blank
input yields null. -/
theorem c6_ensure_category_idempotent_witness :
    (ensureCategoryByName "PLUMBING"
        (ensureCategoryByName "  Plumbing " (Db.mk [] [] [] [] [] [] [] [] [] 1 1)).2).1 =
      (ensureCategoryByName "  Plumbing " (Db.mk [] [] [] [] [] [] [] [] [] 1 1)).1 ∧
    (ensureCategoryByName "  Plumbing " (Db.mk [] [] [] [] [] [] [] [] [] 1 1)).2.categories =
      [⟨1, "Plumbing", "🛠️", "#2563eb"⟩] ∧
    ensureCategoryByName "   " (Db.mk [] [] [] [] [] [] [] [] [] 1 1) =
      (none, Db.mk [] [] [] [] [] [] [] [] [] 1 1) := by
  refine ⟨?_, ?_, ?_⟩
  · exact (c6_ensure_category_idempotent.1 (Db.mk [] [] [] [] [] [] [] [] [] 1 1)
      "  Plumbing " "PLUMBING" (by decide) (by decide) (by decide)).1
  · have := (c6_ensure_category_idempotent.2.1 (Db.mk [] [] [] [] [] [] [] [] [] 1 1)
      "  Plumbing " (by decide) (by decide)).1
    simpa using this
  · exact c6_ensure_category_idempotent.2.2 (Db.mk [] [] [] [] [] [] [] [] [] 1 1)
      "   " (by decide)

/-! ## register: supporting lemmas -/

theorem customerRoleLookup_users (db : Db) :
    ((customerRoleLookup db).2).users = db.users := by
  unfold customerRoleLookup
  cases (db.roles.filter (fun r => r.name == "customer")).head? <;>
    simp [insertRoleIfAbsent_users]

theorem customerRoleLookup_userRoles (db : Db) :
    ((customerRoleLookup db).2).userRoles = db.userRoles := by
  unfold customerRoleLookup
  cases (db.roles.filter (fun r => r.name == "customer")).head? <;>
    simp [insertRoleIfAbsent_userRoles]

/-- The bootstrap/retry always finds a `customer` role, and under positive
role ids its id is nonzero. -/
theorem customerRoleLookup_success (db : Db)
    (hpos : ∀ r ∈ db.roles, r.id ≠ 0) (hnext : db.nextRoleId ≠ 0) :
    ∃ role, (customerRoleLookup db).1 = some role ∧ role.name = "customer" ∧
      role.id ≠ 0 ∧ role ∈ ((customerRoleLookup db).2).roles := by
  unfold customerRoleLookup
  cases hf : (db.roles.filter (fun r => r.name == "customer")).head? with
  | some r =>
    have hmem : r ∈ db.roles.filter (fun q => q.name == "customer") := by
      cases hl : db.roles.filter (fun q => q.name == "customer") with
      | nil => rw [hl] at hf; simp at hf
      | cons x xs =>
        rw [hl] at hf
        simp only [List.head?_cons, Option.some.injEq] at hf
        rw [hf]
        exact List.mem_cons_self _ _
    have hm := List.mem_filter.mp hmem
    exact ⟨r, rfl, by simpa using hm.2, hpos r hm.1, hm.1⟩
  | none =>
    have hnil : db.roles.filter (fun r => r.name == "customer") = [] := by
      cases hl : db.roles.filter (fun r => r.name == "customer") with
      | nil => rfl
      | cons x xs => rw [hl] at hf; simp at hf
    have hnocust : db.roles.any (fun r => r.name == "customer") = false := by
      rw [List.any_eq_false]
      intro r hr hrn
      have : r ∈ db.roles.filter (fun q => q.name == "customer") :=
        List.mem_filter.mpr ⟨hr, hrn⟩
      rw [hnil] at this
      simp at this
    have hcust :
        insertRoleIfAbsent "customer" db =
          { db with
              roles := db.roles ++ [⟨db.nextRoleId, "customer", none⟩],
              nextRoleId := db.nextRoleId + 1 } := by
      unfold insertRoleIfAbsent
      rw [hnocust]
      rfl
    refine ⟨⟨db.nextRoleId, "customer", none⟩, ?_, rfl, hnext, ?_⟩
    · have hfilterc :
          (insertRoleIfAbsent "administrator"
              (insertRoleIfAbsent "provider"
                (insertRoleIfAbsent "customer" db))).roles.filter
            (fun r => r.name == "customer") = [⟨db.nextRoleId, "customer", none⟩] := by
        rw [hcust]
        unfold insertRoleIfAbsent
        split
        · split
          · simp [List.filter_append, hnil]
          · simp [List.filter_append, hnil]
        · split
          · simp [List.filter_append, hnil]
          · simp [List.filter_append, hnil]
      simp only [hfilterc]
      rfl
    · have hmem0 :
          (⟨db.nextRoleId, "customer", none⟩ : RoleRow) ∈
            (insertRoleIfAbsent "customer" db).roles := by
        rw [hcust]
        simp
      have step : ∀ (n : String) (d : Db) (r : RoleRow),
          r ∈ d.roles → r ∈ (insertRoleIfAbsent n d).roles := by
        intro n d r hr
        unfold insertRoleIfAbsent
        split
        · exact hr
        · simp only [List.mem_append]
          exact Or.inl hr
      exact step _ _ _ (step _ _ _ hmem0)

/-- `register` leaves a conflicting state untouched and reports 409. -/
theorem register_conflict (env : Env) (db : Db) (uid : String) (body : RegisterBody)
    (hval : registerValidate body = true)
    (hne : db.users.filter (fun u => u.email == strToLower body.email) ≠ []) :
    register env db uid body = (.err 409 "USER_EXISTS", db) := by
  unfold register
  rw [hval]
  cases hf : db.users.filter (fun u => u.email == strToLower body.email) with
  | nil => exact absurd hf hne
  | cons x xs => rfl

/-- Whatever branch `register` takes past the duplicate check, the users
table afterwards is the old one plus the one new row. -/
theorem register_users_shape (env : Env) (db : Db) (uid : String) (body : RegisterBody)
    (hval : registerValidate body = true)
    (hfree : db.users.filter (fun u => u.email == strToLower body.email) = []) :
    ((register env db uid body).2).users =
      db.users ++
        [⟨uid, strToLower body.email, hashPassword body.password,
          body.firstName, body.lastName⟩] := by
  unfold register
  rw [hval, hfree]
  simp only [List.isEmpty_nil, Bool.not_true, Bool.false_eq_true, if_false]
  split
  next db2 heq =>
    have := congrArg (fun p => (p.2).users) heq
    simp only at this
    rw [← this, customerRoleLookup_users]
  next role db2 heq =>
    have := congrArg (fun p => (p.2).users) heq
    simp only at this
    split
    · rw [← this, customerRoleLookup_users]
    · cases generateToken env.jwtSecret uid ["customer"] with
      | none => rw [← this, customerRoleLookup_users]
      | some tok => rw [← this, customerRoleLookup_users]

/-! ## Claim C9 -/

/-- Claim C9: registering twice with the same email yields 409 `USER_EXISTS`
on the second attempt, which returns before any insert, so the second attempt
changes nothing. -/
theorem c9_duplicate_registration_conflict :
    ∀ (env : Env) (db : Db) (uid1 uid2 : String) (body1 body2 : RegisterBody),
      registerValidate body1 = true →
      registerValidate body2 = true →
      body2.email = body1.email →
      register env ((register env db uid1 body1).2) uid2 body2 =
        (.err 409 "USER_EXISTS", (register env db uid1 body1).2) := by
  intro env db uid1 uid2 body1 body2 hv1 hv2 hmail
  apply register_conflict env _ uid2 body2 hv2
  cases hf : db.users.filter (fun u => u.email == strToLower body1.email) with
  | nil =>
    rw [register_users_shape env db uid1 body1 hv1 hf, hmail, List.filter_append, hf]
    simp
  | cons x xs =>
    rw [register_conflict env db uid1 body1 hv1 (by rw [hf]; simp), hmail, hf]
    simp

/-- Claim C9 witness: the double registration of the spec's example scenario. -/
theorem c9_duplicate_registration_conflict_witness :
    register ⟨some "secret", none⟩
        ((register ⟨some "secret", none⟩ (Db.mk [] [] [] [] [] [] [] [] [] 1 1) "u1"
          ⟨"Jane", "Doe", "jane@x.com", "Password1", "Password1"⟩).2) "u2"
        ⟨"Jane", "Doe", "jane@x.com", "Password1", "Password1"⟩ =
      (.err 409 "USER_EXISTS",
        (register ⟨some "secret", none⟩ (Db.mk [] [] [] [] [] [] [] [] [] 1 1) "u1"
          ⟨"Jane", "Doe", "jane@x.com", "Password1", "Password1"⟩).2) :=
  c9_duplicate_registration_conflict ⟨some "secret", none⟩
    (Db.mk [] [] [] [] [] [] [] [] [] 1 1) "u1" "u2"
    ⟨"Jane", "Doe", "jane@x.com", "Password1", "Password1"⟩
    ⟨"Jane", "Doe", "jane@x.com", "Password1", "Password1"⟩
    (by decide) (by decide) rfl

/-! ## Claim C8 -/

/-- Claim C8: a valid registration creates a user carrying exactly one role
assignment — the `customer` role — and the issued token embeds exactly the
role set `["customer"]`. -/
theorem c8_registration_customer_role :
    ∀ (env : Env) (db : Db) (uid : String) (body : RegisterBody) (s : String),
      registerValidate body = true →
      db.users.filter (fun u => u.email == strToLower body.email) = [] →
      env.jwtSecret = some s → s.isEmpty = false →
      (∀ ur ∈ db.userRoles, ur.userId ≠ uid) →
      (∀ r ∈ db.roles, r.id ≠ 0) → db.nextRoleId ≠ 0 →
      ∃ user tok cid,
        (register env db uid body).1 = .ok user ["customer"] tok ∧
        user.id = uid ∧
        tok = ⟨uid, ["customer"]⟩ ∧
        ((register env db uid body).2).userRoles.filter (fun ur => ur.userId == uid) =
          [⟨uid, cid⟩] ∧
        ∃ r ∈ ((register env db uid body).2).roles, r.id = cid ∧ r.name = "customer" := by
  intro env db uid body s hval hfree hsec hsne hfresh hpos hnext
  set newUser : UserRow :=
    ⟨uid, strToLower body.email, hashPassword body.password, body.firstName, body.lastName⟩
    with hnu
  set db1 : Db := { db with users := db.users ++ [newUser] } with hdb1
  have hroles1 : db1.roles = db.roles := rfl
  obtain ⟨role, hrl, hrname, hrid, hrmem⟩ :=
    customerRoleLookup_success db1 (by rw [hroles1]; exact hpos) hnext
  have hpair : customerRoleLookup db1 = (some role, (customerRoleLookup db1).2) := by
    rw [← hrl]
  have hridb : (role.id == 0) = false := by
    simp [hrid]
  have hreg :
      register env db uid body =
        (.ok newUser ["customer"] ⟨uid, ["customer"]⟩,
         { (customerRoleLookup db1).2 with
             userRoles := ((customerRoleLookup db1).2).userRoles ++ [⟨uid, role.id⟩] }) := by
    unfold register
    rw [hval, hfree]
    simp only [List.isEmpty_nil, Bool.not_true, Bool.false_eq_true, if_false]
    rw [← hdb1, hpair]
    simp only [hridb, Bool.false_eq_true, if_false]
    rw [hsec]
    unfold generateToken
    dsimp only
    rw [hsne]
    rfl
  refine ⟨newUser, ⟨uid, ["customer"]⟩, role.id, ?_, rfl, rfl, ?_, ?_⟩
  · rw [hreg]
  · rw [hreg]
    simp only
    rw [List.filter_append, customerRoleLookup_userRoles]
    have hold : db1.userRoles.filter (fun ur => ur.userId == uid) = [] := by
      rw [List.filter_eq_nil_iff]
      intro ur hur
      have : ur.userId ≠ uid := hfresh ur hur
      simp [this]
    rw [hold]
    simp
  · refine ⟨role, ?_, rfl, hrname⟩
    rw [hreg]
    exact hrmem

/-- Claim C8 witness: the spec's example registration from an empty database. -/
theorem c8_registration_customer_role_witness :
    ∃ user tok cid,
      (register ⟨some "secret", none⟩ (Db.mk [] [] [] [] [] [] [] [] [] 1 1) "u1"
          ⟨"Jane", "Doe", "jane@x.com", "Password1", "Password1"⟩).1 =
        .ok user ["customer"] tok ∧
      user.id = "u1" ∧
      tok = ⟨"u1", ["customer"]⟩ ∧
      ((register ⟨some "secret", none⟩ (Db.mk [] [] [] [] [] [] [] [] [] 1 1) "u1"
          ⟨"Jane", "Doe", "jane@x.com", "Password1", "Password1"⟩).2).userRoles.filter
          (fun ur => ur.userId == "u1") =
        [⟨"u1", cid⟩] ∧
      ∃ r ∈ ((register ⟨some "secret", none⟩ (Db.mk [] [] [] [] [] [] [] [] [] 1 1) "u1"
          ⟨"Jane", "Doe", "jane@x.com", "Password1", "Password1"⟩).2).roles,
        r.id = cid ∧ r.name = "customer" :=
  c8_registration_customer_role ⟨some "secret", none⟩
    (Db.mk [] [] [] [] [] [] [] [] [] 1 1) "u1"
    ⟨"Jane", "Doe", "jane@x.com", "Password1", "Password1"⟩ "secret"
    (by decide) (by decide) rfl (by decide) (by simp) (by simp) (by decide)

/-! ## Offline onboarding: supporting lemmas -/

theorem ensureUserHasRole_insert (uid : String) (rid : Nat) (db : Db)
    (hfresh : ∀ ur ∈ db.userRoles, ur.userId ≠ uid) :
    ensureUserHasRole uid rid db = { db with userRoles := db.userRoles ++ [⟨uid, rid⟩] } := by
  unfold ensureUserHasRole
  have hnil : db.userRoles.filter (fun ur => ur.userId == uid && ur.roleId == rid) = [] := by
    rw [List.filter_eq_nil_iff]
    intro ur hur
    have := hfresh ur hur
    simp [this]
  rw [hnil]
  rfl

/-- The shared tail of `createOfflineProvider`, on a user with no prior role
link and no prior profile: it answers `ok`, creates exactly one `provider`
role link and exactly one `pending` profile stamped with the recruiter. -/
theorem finishOfflineProvider_spec (db : Db) (now : Nat) (recruiterId : String)
    (providerRoleId : Nat) (u : UserRow) (temp : Option String) (pid : String)
    (dids : List String) (body : CreateProviderBody)
    (hfreshUR : ∀ ur ∈ db.userRoles, ur.userId ≠ u.id)
    (hfreshPP : ∀ p ∈ db.providerProfiles, p.userId ≠ u.id) :
    ∃ provider dbf,
      finishOfflineProvider db now recruiterId providerRoleId u temp pid dids body =
        (.ok provider u temp, dbf) ∧
      provider.status = "pending" ∧
      provider.onboardedBy = some recruiterId ∧
      provider.onboardedAt = some now ∧
      provider.userId = u.id ∧
      dbf.users = db.users ∧
      dbf.roles = db.roles ∧
      dbf.userRoles.filter (fun ur => ur.userId == u.id) = [⟨u.id, providerRoleId⟩] ∧
      dbf.providerProfiles.filter (fun p => p.userId == u.id) = [provider] := by
  unfold finishOfflineProvider
  rw [ensureUserHasRole_insert u.id providerRoleId db hfreshUR]
  set db2 : Db := { db with userRoles := db.userRoles ++ [⟨u.id, providerRoleId⟩] } with hdb2
  have hdb3u := ensureCategoryByName_users body.serviceCategory db2
  have hdb3r := ensureCategoryByName_roles body.serviceCategory db2
  have hdb3ur := ensureCategoryByName_userRoles body.serviceCategory db2
  have hdb3pp := ensureCategoryByName_providerProfiles body.serviceCategory db2
  dsimp only
  unfold createProviderProfileRecord
  dsimp only
  have hURfilter :
      ∀ (l : List UserRoleRow), l = db.userRoles ++ [⟨u.id, providerRoleId⟩] →
        l.filter (fun ur => ur.userId == u.id) = [⟨u.id, providerRoleId⟩] := by
    intro l hl
    subst hl
    rw [List.filter_append]
    have hnil : db.userRoles.filter (fun ur => ur.userId == u.id) = [] := by
      rw [List.filter_eq_nil_iff]
      intro ur hur
      have := hfreshUR ur hur
      simp [this]
    rw [hnil]
    simp
  have hPPfilter :
      ∀ (l : List ProviderProfileRow) (pr : ProviderProfileRow),
        pr.userId = u.id → l = db.providerProfiles ++ [pr] →
        l.filter (fun p => p.userId == u.id) = [pr] := by
    intro l pr hpr hl
    subst hl
    rw [List.filter_append]
    have hnil : db.providerProfiles.filter (fun p => p.userId == u.id) = [] := by
      rw [List.filter_eq_nil_iff]
      intro p hp
      have := hfreshPP p hp
      simp [this]
    rw [hnil]
    simp [hpr]
  cases hdocs : body.documents with
  | none =>
    dsimp only
    refine ⟨_, _, rfl, rfl, rfl, rfl, rfl, ?_, ?_, ?_, ?_⟩
    · exact hdb3u
    · exact hdb3r
    · exact hURfilter _ hdb3ur
    · exact hPPfilter _ _ rfl (by rw [hdb3pp])
  | some docs =>
    dsimp only
    cases hde : docs.isEmpty with
    | false =>
      simp only [Bool.false_eq_true, if_false]
      refine ⟨_, _, rfl, rfl, rfl, rfl, rfl, ?_, ?_, ?_, ?_⟩
      · rw [insertProviderDocuments_users]
        exact hdb3u
      · rw [insertProviderDocuments_roles]
        exact hdb3r
      · rw [insertProviderDocuments_userRoles]
        exact hURfilter _ hdb3ur
      · rw [insertProviderDocuments_providerProfiles]
        exact hPPfilter _ _ rfl (by rw [hdb3pp])
    | true =>
      simp only [if_true]
      refine ⟨_, _, rfl, rfl, rfl, rfl, rfl, ?_, ?_, ?_, ?_⟩
      · exact hdb3u
      · exact hdb3r
      · exact hURfilter _ hdb3ur
      · exact hPPfilter _ _ rfl (by rw [hdb3pp])

/-- `finishOfflineProvider` always responds `ok`, echoing the user row and
the temporary password it was given. -/
theorem finishOfflineProvider_fst (db : Db) (now : Nat) (recruiterId : String)
    (providerRoleId : Nat) (u : UserRow) (temp : Option String) (pid : String)
    (dids : List String) (body : CreateProviderBody) :
    ∃ provider,
      (finishOfflineProvider db now recruiterId providerRoleId u temp pid dids body).1 =
        .ok provider u temp := by
  unfold finishOfflineProvider
  dsimp only
  cases body.documents with
  | none => exact ⟨_, rfl⟩
  | some docs =>
    cases docs.isEmpty
    · exact ⟨_, rfl⟩
    · exact ⟨_, rfl⟩

/-- On a validated request with a resolved recruiter and an unknown email,
`createOfflineProvider` takes the fresh-user path: ensure the provider role,
insert the user with the temporary password, and hand over to
`finishOfflineProvider`. -/
theorem createOfflineProvider_fresh_path (env : Env) (db : Db) (now : Nat)
    (u : AuthUser) (randoms : Nat → Nat) (uid pid : String) (dids : List String)
    (body : CreateProviderBody) (rid : String)
    (hval : createProviderValidate body = true)
    (hres : resolveRecruiterId db u body.recruiterId = .ok rid)
    (hfree : db.users.filter (fun q => q.email == strToLower body.email) = []) :
    createOfflineProvider env db now (some u) randoms uid pid dids body =
      finishOfflineProvider
        { (ensureRoleId "provider" "Service provider role" db).2 with
            users := ((ensureRoleId "provider" "Service provider role" db).2).users ++
              [⟨uid, strToLower body.email,
                hashPassword
                  (match env.providerTempPassword with
                   | some p => p
                   | none => generateRandomString 12 randoms),
                (splitFullName body.fullName).1, (splitFullName body.fullName).2⟩] }
        now rid (ensureRoleId "provider" "Service provider role" db).1
        ⟨uid, strToLower body.email,
          hashPassword
            (match env.providerTempPassword with
             | some p => p
             | none => generateRandomString 12 randoms),
          (splitFullName body.fullName).1, (splitFullName body.fullName).2⟩
        (some
          (match env.providerTempPassword with
           | some p => p
           | none => generateRandomString 12 randoms))
        pid dids body := by
  unfold createOfflineProvider
  rw [hval]
  dsimp only
  rw [hres]
  dsimp only
  have husers : ((ensureRoleId "provider" "Service provider role" db).2).users = db.users :=
    ensureRoleId_users _ _ _
  rw [husers, hfree]
  rfl

/-! ## Claim C3 -/

/-- Claim C3: the acting recruiter for `createOfflineProvider` is resolved
as: recruiter role ⇒ the caller's own recruiter row; administrator role
(without the recruiter role) ⇒ a supplied `recruiterId` that must exist,
with a missing id answered 400 `RECRUITER_ID_REQUIRED`; neither role ⇒ 403
`INSUFFICIENT_PERMISSIONS`. -/
theorem c3_resolve_recruiter_context :
    (∀ (db : Db) (u : AuthUser) (rbody : Option String) (r : RecruiterRow)
        (rest : List RecruiterRow),
      u.roles.contains "recruiter" = true →
      db.recruiters.filter (fun q => q.userId == u.userId) = r :: rest →
      resolveRecruiterId db u rbody = .ok r.id) ∧
    (∀ (db : Db) (u : AuthUser) (rid : String) (r : RecruiterRow)
        (rest : List RecruiterRow),
      u.roles.contains "recruiter" = false →
      u.roles.contains "administrator" = true →
      db.recruiters.filter (fun q => q.id == rid) = r :: rest →
      resolveRecruiterId db u (some rid) = .ok rid) ∧
    (∀ (db : Db) (u : AuthUser) (rid : String),
      u.roles.contains "recruiter" = false →
      u.roles.contains "administrator" = true →
      db.recruiters.filter (fun q => q.id == rid) = [] →
      resolveRecruiterId db u (some rid) = .error "RECRUITER_NOT_FOUND") ∧
    (∀ (env : Env) (db : Db) (now : Nat) (randoms : Nat → Nat) (uid pid : String)
        (dids : List String) (body : CreateProviderBody) (u : AuthUser),
      u.roles.contains "administrator" = true →
      u.roles.contains "recruiter" = false →
      body.recruiterId = none →
      createProviderValidate body = true →
      createOfflineProvider env db now (some u) randoms uid pid dids body =
        (.err 400 "RECRUITER_ID_REQUIRED", db)) ∧
    (∀ (env : Env) (db : Db) (now : Nat) (randoms : Nat → Nat) (uid pid : String)
        (dids : List String) (body : CreateProviderBody) (u : AuthUser),
      u.roles.contains "administrator" = false →
      u.roles.contains "recruiter" = false →
      createProviderValidate body = true →
      createOfflineProvider env db now (some u) randoms uid pid dids body =
        (.err 403 "INSUFFICIENT_PERMISSIONS", db)) := by
  refine ⟨?_, ?_, ?_, ?_, ?_⟩
  · intro db u rbody r rest hrec hfilt
    unfold resolveRecruiterId
    dsimp only
    rw [hrec, hfilt]
    rfl
  · intro db u rid r rest hrec hadm hfilt
    unfold resolveRecruiterId
    dsimp only
    rw [hrec, hadm, hfilt]
    rfl
  · intro db u rid hrec hadm hfilt
    unfold resolveRecruiterId
    dsimp only
    rw [hrec, hadm, hfilt]
    rfl
  · intro env db now randoms uid pid dids body u hadm hrec hnone hval
    have hres : resolveRecruiterId db u body.recruiterId = .error "RECRUITER_ID_REQUIRED" := by
      unfold resolveRecruiterId
      dsimp only
      rw [hrec, hadm, hnone]
      rfl
    unfold createOfflineProvider
    rw [hval]
    dsimp only
    rw [hres]
    rfl
  · intro env db now randoms uid pid dids body u hadm hrec hval
    have hres : resolveRecruiterId db u body.recruiterId = .error "INSUFFICIENT_PERMISSIONS" := by
      unfold resolveRecruiterId
      dsimp only
      rw [hrec, hadm]
      rfl
    unfold createOfflineProvider
    rw [hval]
    dsimp only
    rw [hres]
    rfl

/-- Claim C3 witness: a one-recruiter database exercised by a recruiter
caller, a recruiter-less administrator without `recruiterId`, and a plain
customer. -/
theorem c3_resolve_recruiter_context_witness :
    resolveRecruiterId
        (Db.mk [] [] [] [⟨"r1", "ru", "1234567", "Metro", "active", none, none, none⟩]
          [] [] [] [] [] 1 1)
        ⟨"ru", ["recruiter"]⟩ none = .ok "r1" ∧
    createOfflineProvider ⟨some "secret", none⟩
        (Db.mk [] [] [] [⟨"r1", "ru", "1234567", "Metro", "active", none, none, none⟩]
          [] [] [] [] [] 1 1)
        9 (some ⟨"ua", ["administrator"]⟩) (fun _ => 0) "u1" "p1" []
        ⟨"Bob The Builder", "bob@x.yz", "5551234", "Plumbing", "Metro",
         .val 25, .undef, .undef, .undef, none, .undef, .undef, none⟩ =
      (.err 400 "RECRUITER_ID_REQUIRED",
        Db.mk [] [] [] [⟨"r1", "ru", "1234567", "Metro", "active", none, none, none⟩]
          [] [] [] [] [] 1 1) ∧
    createOfflineProvider ⟨some "secret", none⟩
        (Db.mk [] [] [] [⟨"r1", "ru", "1234567", "Metro", "active", none, none, none⟩]
          [] [] [] [] [] 1 1)
        9 (some ⟨"uc", ["customer"]⟩) (fun _ => 0) "u1" "p1" []
        ⟨"Bob The Builder", "bob@x.yz", "5551234", "Plumbing", "Metro",
         .val 25, .undef, .undef, .undef, none, .undef, .undef, none⟩ =
      (.err 403 "INSUFFICIENT_PERMISSIONS",
        Db.mk [] [] [] [⟨"r1", "ru", "1234567", "Metro", "active", none, none, none⟩]
          [] [] [] [] [] 1 1) := by
  refine ⟨?_, ?_, ?_⟩
  · exact c3_resolve_recruiter_context.1
      (Db.mk [] [] [] [⟨"r1", "ru", "1234567", "Metro", "active", none, none, none⟩]
        [] [] [] [] [] 1 1)
      ⟨"ru", ["recruiter"]⟩ none ⟨"r1", "ru", "1234567", "Metro", "active", none, none, none⟩
      [] (by decide) (by decide)
  · exact c3_resolve_recruiter_context.2.2.2.1 ⟨some "secret", none⟩
      (Db.mk [] [] [] [⟨"r1", "ru", "1234567", "Metro", "active", none, none, none⟩]
        [] [] [] [] [] 1 1)
      9 (fun _ => 0) "u1" "p1" []
      ⟨"Bob The Builder", "bob@x.yz", "5551234", "Plumbing", "Metro",
       .val 25, .undef, .undef, .undef, none, .undef, .undef, none⟩
      ⟨"ua", ["administrator"]⟩ (by decide) (by decide) rfl (by decide)
  · exact c3_resolve_recruiter_context.2.2.2.2 ⟨some "secret", none⟩
      (Db.mk [] [] [] [⟨"r1", "ru", "1234567", "Metro", "active", none, none, none⟩]
        [] [] [] [] [] 1 1)
      9 (fun _ => 0) "u1" "p1" []
      ⟨"Bob The Builder", "bob@x.yz", "5551234", "Plumbing", "Metro",
       .val 25, .undef, .undef, .undef, none, .undef, .undef, none⟩
      ⟨"uc", ["customer"]⟩ (by decide) (by decide) (by decide)

/-! ## Claim C2 -/

/-- Claim C2: a `createOfflineProvider` request with a resolved recruiter and
a fresh (lower-cased) email creates exactly one new user, exactly one
`provider` role assignment for that user, and exactly one provider profile
with status `pending` whose `onboardedBy` is the acting recruiter. -/
theorem c2_offline_onboarding_rows :
    ∀ (env : Env) (db : Db) (now : Nat) (u : AuthUser) (randoms : Nat → Nat)
      (uid pid : String) (dids : List String) (body : CreateProviderBody) (rid : String),
      createProviderValidate body = true →
      resolveRecruiterId db u body.recruiterId = .ok rid →
      db.users.filter (fun q => q.email == strToLower body.email) = [] →
      (∀ ur ∈ db.userRoles, ur.userId ≠ uid) →
      (∀ p ∈ db.providerProfiles, p.userId ≠ uid) →
      ∃ provider user' temp,
        (createOfflineProvider env db now (some u) randoms uid pid dids body).1 =
          .ok provider user' temp ∧
        user'.id = uid ∧
        user'.email = strToLower body.email ∧
        ((createOfflineProvider env db now (some u) randoms uid pid dids body).2).users =
          db.users ++ [user'] ∧
        ((createOfflineProvider env db now (some u) randoms uid pid dids body).2).userRoles.filter
            (fun ur => ur.userId == uid) =
          [⟨uid, (ensureRoleId "provider" "Service provider role" db).1⟩] ∧
        (∃ r ∈ ((createOfflineProvider env db now (some u) randoms uid pid dids body).2).roles,
          r.id = (ensureRoleId "provider" "Service provider role" db).1 ∧
          r.name = "provider") ∧
        ((createOfflineProvider env db now (some u) randoms uid pid dids
            body).2).providerProfiles.filter (fun p => p.userId == uid) = [provider] ∧
        provider.status = "pending" ∧
        provider.onboardedBy = some rid ∧
        provider.onboardedAt = some now := by
  intro env db now u randoms uid pid dids body rid hval hres hfree hfreshUR hfreshPP
  have hpath := createOfflineProvider_fresh_path env db now u randoms uid pid dids body rid
    hval hres hfree
  set temp : String :=
    (match env.providerTempPassword with
     | some p => p
     | none => generateRandomString 12 randoms) with htemp
  set newUser : UserRow :=
    ⟨uid, strToLower body.email, hashPassword temp,
      (splitFullName body.fullName).1, (splitFullName body.fullName).2⟩ with hnu
  set db2 : Db :=
    { (ensureRoleId "provider" "Service provider role" db).2 with
        users := ((ensureRoleId "provider" "Service provider role" db).2).users ++ [newUser] }
    with hdb2
  have hur2 : db2.userRoles = db.userRoles := ensureRoleId_userRoles _ _ _
  have hpp2 : db2.providerProfiles = db.providerProfiles := ensureRoleId_providerProfiles _ _ _
  have hr2 : db2.roles = ((ensureRoleId "provider" "Service provider role" db).2).roles := rfl
  obtain ⟨provider, dbf, heq, hst, hob, hoa, hpuid, hdbfu, hdbfr, hdbfur, hdbfpp⟩ :=
    finishOfflineProvider_spec db2 now rid (ensureRoleId "provider" "Service provider role" db).1
      newUser (some temp) pid dids body
      (by rw [hur2]; exact fun ur hur => hfreshUR ur hur)
      (by rw [hpp2]; exact fun p hp => hfreshPP p hp)
  have hfull :
      createOfflineProvider env db now (some u) randoms uid pid dids body =
        (.ok provider newUser (some temp), dbf) := by
    rw [hpath]
    exact heq
  obtain ⟨rrow, hrmem, hrid, hrname⟩ :=
    ensureRoleId_spec "provider" "Service provider role" db
  refine ⟨provider, newUser, some temp, ?_, rfl, rfl, ?_, ?_, ?_, ?_, hst, hob, hoa⟩
  · rw [hfull]
  · rw [hfull]
    dsimp only
    rw [hdbfu, hdb2]
    dsimp only
    rw [ensureRoleId_users]
  · rw [hfull]
    dsimp only
    exact hdbfur
  · refine ⟨rrow, ?_, hrid, hrname⟩
    rw [hfull]
    dsimp only
    rw [hdbfr, hr2]
    exact hrmem
  · rw [hfull]
    dsimp only
    exact hdbfpp

/-- Claim C2 witness: a recruiter onboards a brand-new provider from a
minimal database. -/
theorem c2_offline_onboarding_rows_witness :
    ∃ provider user' temp,
      (createOfflineProvider ⟨some "secret", none⟩
          (Db.mk [] [] [] [⟨"r1", "ru", "1234567", "Metro", "active", none, none, none⟩]
            [] [] [] [] [] 1 1)
          9 (some ⟨"ru", ["recruiter"]⟩) (fun _ => 0) "u1" "p1" []
          ⟨"Bob The Builder", "bob@x.yz", "5551234", "Plumbing", "Metro",
           .val 25, .undef, .undef, .undef, none, .undef, .undef, none⟩).1 =
        .ok provider user' temp ∧
      user'.id = "u1" ∧
      user'.email = strToLower "bob@x.yz" ∧
      ((createOfflineProvider ⟨some "secret", none⟩
          (Db.mk [] [] [] [⟨"r1", "ru", "1234567", "Metro", "active", none, none, none⟩]
            [] [] [] [] [] 1 1)
          9 (some ⟨"ru", ["recruiter"]⟩) (fun _ => 0) "u1" "p1" []
          ⟨"Bob The Builder", "bob@x.yz", "5551234", "Plumbing", "Metro",
           .val 25, .undef, .undef, .undef, none, .undef, .undef, none⟩).2).users =
        (Db.mk [] [] [] [⟨"r1", "ru", "1234567", "Metro", "active", none, none, none⟩]
          [] [] [] [] [] 1 1).users ++ [user'] ∧
      ((createOfflineProvider ⟨some "secret", none⟩
          (Db.mk [] [] [] [⟨"r1", "ru", "1234567", "Metro", "active", none, none, none⟩]
            [] [] [] [] [] 1 1)
          9 (some ⟨"ru", ["recruiter"]⟩) (fun _ => 0) "u1" "p1" []
          ⟨"Bob The Builder", "bob@x.yz", "5551234", "Plumbing", "Metro",
           .val 25, .undef, .undef, .undef, none, .undef, .undef, none⟩).2).userRoles.filter
          (fun ur => ur.userId == "u1") =
        [⟨"u1", (ensureRoleId "provider" "Service provider role"
          (Db.mk [] [] [] [⟨"r1", "ru", "1234567", "Metro", "active", none, none, none⟩]
            [] [] [] [] [] 1 1)).1⟩] ∧
      provider.status = "pending" ∧
      provider.onboardedBy = some "r1" := by
  obtain ⟨provider, user', temp, h1, h2, h3, h4, h5, _h6, _h7, h8, h9, _⟩ :=
    c2_offline_onboarding_rows ⟨some "secret", none⟩
      (Db.mk [] [] [] [⟨"r1", "ru", "1234567", "Metro", "active", none, none, none⟩]
        [] [] [] [] [] 1 1)
      9 ⟨"ru", ["recruiter"]⟩ (fun _ => 0) "u1" "p1" []
      ⟨"Bob The Builder", "bob@x.yz", "5551234", "Plumbing", "Metro",
       .val 25, .undef, .undef, .undef, none, .undef, .undef, none⟩ "r1"
      (by decide) rfl
      (by decide) (by simp) (by simp)
  exact ⟨provider, user', temp, h1, h2, h3, h4, h5, h8, h9⟩

/-! ## Claim C10 -/

/-- Claim C10: when `PROVIDER_TEMPPASSWORD` is set, every fresh-user
onboarding returns exactly that value as the temporary password, so it is
identical across all onboardings regardless of the other inputs; only when
the variable is unset is a random 12-character string generated per call. -/
theorem c10_temp_password_env_override :
    (∀ (env : Env) (db : Db) (now : Nat) (u : AuthUser) (randoms : Nat → Nat)
        (uid pid : String) (dids : List String) (body : CreateProviderBody)
        (rid : String) (p : String),
      env.providerTempPassword = some p →
      createProviderValidate body = true →
      resolveRecruiterId db u body.recruiterId = .ok rid →
      db.users.filter (fun q => q.email == strToLower body.email) = [] →
      ∃ provider user',
        (createOfflineProvider env db now (some u) randoms uid pid dids body).1 =
          .ok provider user' (some p)) ∧
    (∀ (env : Env) (db : Db) (now : Nat) (u : AuthUser) (randoms : Nat → Nat)
        (uid pid : String) (dids : List String) (body : CreateProviderBody)
        (rid : String),
      env.providerTempPassword = none →
      createProviderValidate body = true →
      resolveRecruiterId db u body.recruiterId = .ok rid →
      db.users.filter (fun q => q.email == strToLower body.email) = [] →
      ∃ provider user',
        (createOfflineProvider env db now (some u) randoms uid pid dids body).1 =
          .ok provider user' (some (generateRandomString 12 randoms))) ∧
    (∀ (len : Nat) (randoms : Nat → Nat), (generateRandomString len randoms).length = len) := by
  refine ⟨?_, ?_, ?_⟩
  · intro env db now u randoms uid pid dids body rid p hp hval hres hfree
    have hpath := createOfflineProvider_fresh_path env db now u randoms uid pid dids body rid
      hval hres hfree
    rw [hp] at hpath
    obtain ⟨provider, hprov⟩ :=
      finishOfflineProvider_fst
        { (ensureRoleId "provider" "Service provider role" db).2 with
            users := ((ensureRoleId "provider" "Service provider role" db).2).users ++
              [⟨uid, strToLower body.email, hashPassword p,
                (splitFullName body.fullName).1, (splitFullName body.fullName).2⟩] }
        now rid (ensureRoleId "provider" "Service provider role" db).1
        ⟨uid, strToLower body.email, hashPassword p,
          (splitFullName body.fullName).1, (splitFullName body.fullName).2⟩
        (some p) pid dids body
    exact ⟨provider,
      ⟨uid, strToLower body.email, hashPassword p,
        (splitFullName body.fullName).1, (splitFullName body.fullName).2⟩,
      by rw [hpath]; exact hprov⟩
  · intro env db now u randoms uid pid dids body rid hp hval hres hfree
    have hpath := createOfflineProvider_fresh_path env db now u randoms uid pid dids body rid
      hval hres hfree
    rw [hp] at hpath
    obtain ⟨provider, hprov⟩ :=
      finishOfflineProvider_fst
        { (ensureRoleId "provider" "Service provider role" db).2 with
            users := ((ensureRoleId "provider" "Service provider role" db).2).users ++
              [⟨uid, strToLower body.email, hashPassword (generateRandomString 12 randoms),
                (splitFullName body.fullName).1, (splitFullName body.fullName).2⟩] }
        now rid (ensureRoleId "provider" "Service provider role" db).1
        ⟨uid, strToLower body.email, hashPassword (generateRandomString 12 randoms),
          (splitFullName body.fullName).1, (splitFullName body.fullName).2⟩
        (some (generateRandomString 12 randoms)) pid dids body
    exact ⟨provider,
      ⟨uid, strToLower body.email, hashPassword (generateRandomString 12 randoms),
        (splitFullName body.fullName).1, (splitFullName body.fullName).2⟩,
      by rw [hpath]; exact hprov⟩
  · intro len randoms
    unfold generateRandomString
    dsimp only
    show (List.map _ (List.range len)).length = len
    simp

/-- Claim C10 witness: with `PROVIDER_TEMPPASSWORD = "Temp123!"` two distinct
onboardings both return `some "Temp123!"`, and the random fallback has
length 12. -/
theorem c10_temp_password_env_override_witness :
    (∃ provider user',
      (createOfflineProvider ⟨some "secret", some "Temp123!"⟩
          (Db.mk [] [] [] [⟨"r1", "ru", "1234567", "Metro", "active", none, none, none⟩]
            [] [] [] [] [] 1 1)
          9 (some ⟨"ru", ["recruiter"]⟩) (fun _ => 0) "u1" "p1" []
          ⟨"Bob The Builder", "bob@x.yz", "5551234", "Plumbing", "Metro",
           .val 25, .undef, .undef, .undef, none, .undef, .undef, none⟩).1 =
        .ok provider user' (some "Temp123!")) ∧
    (∃ provider user',
      (createOfflineProvider ⟨some "secret", some "Temp123!"⟩
          (Db.mk [] [] [] [⟨"r1", "ru", "1234567", "Metro", "active", none, none, none⟩]
            [] [] [] [] [] 1 1)
          11 (some ⟨"ru", ["recruiter"]⟩) (fun _ => 7) "u2" "p2" []
          ⟨"Ann Oak", "ann@x.yz", "5559999", "Painting", "Metro",
           .undef, .undef, .undef, .undef, none, .undef, .undef, none⟩).1 =
        .ok provider user' (some "Temp123!")) ∧
    (generateRandomString 12 (fun _ => 0)).length = 12 := by
  refine ⟨?_, ?_, ?_⟩
  · exact c10_temp_password_env_override.1 ⟨some "secret", some "Temp123!"⟩
      (Db.mk [] [] [] [⟨"r1", "ru", "1234567", "Metro", "active", none, none, none⟩]
        [] [] [] [] [] 1 1)
      9 ⟨"ru", ["recruiter"]⟩ (fun _ => 0) "u1" "p1" []
      ⟨"Bob The Builder", "bob@x.yz", "5551234", "Plumbing", "Metro",
       .val 25, .undef, .undef, .undef, none, .undef, .undef, none⟩ "r1" "Temp123!"
      rfl (by decide) rfl (by decide)
  · exact c10_temp_password_env_override.1 ⟨some "secret", some "Temp123!"⟩
      (Db.mk [] [] [] [⟨"r1", "ru", "1234567", "Metro", "active", none, none, none⟩]
        [] [] [] [] [] 1 1)
      11 ⟨"ru", ["recruiter"]⟩ (fun _ => 7) "u2" "p2" []
      ⟨"Ann Oak", "ann@x.yz", "5559999", "Painting", "Metro",
       .undef, .undef, .undef, .undef, none, .undef, .undef, none⟩ "r1" "Temp123!"
      rfl (by decide) rfl (by decide)
  · exact c10_temp_password_env_override.2.2 12 (fun _ => 0)

/-! ## Claim C1: supporting lemmas -/

/-- When no pending invitation carries the supplied token, `registerRecruiter`
fails with `INVALID_INVITE_TOKEN` and changes nothing. -/
theorem registerRecruiter_no_pending (env : Env) (db : Db) (now : Nat)
    (uid rid : String) (body : RegisterRecruiterBody) (t : String)
    (hval : registerRecruiterValidate body = true)
    (htok : body.token = some t)
    (hnil : db.recruiterInvitations.filter
        (fun i => i.token == t && i.status == "pending") = []) :
    registerRecruiter env db now uid rid body = (.err 400 "INVALID_INVITE_TOKEN", db) := by
  unfold registerRecruiter
  rw [hval]
  dsimp only
  rw [htok]
  dsimp only
  rw [hnil]
  rfl

/-- After stamping the one pending invitation with the token accepted, no
pending invitation carries that token any more. -/
theorem accepted_update_no_pending (l : List InvitationRow) (t : String)
    (inv : InvitationRow) (now : Nat)
    (hf : l.filter (fun i => i.token == t && i.status == "pending") = [inv]) :
    (l.map (fun i =>
        if i.id == inv.id then { i with status := "accepted", acceptedAt := some now }
        else i)).filter (fun i => i.token == t && i.status == "pending") = [] := by
  rw [List.filter_eq_nil_iff]
  intro y hy
  obtain ⟨x, hx, hxy⟩ := List.mem_map.mp hy
  by_cases hid : (x.id == inv.id) = true
  · rw [← hxy]
    simp [hid]
  · have hyx : y = x := by
      rw [← hxy]
      simp [hid]
    intro hx2
    rw [hyx] at hx2
    have hmem : x ∈ l.filter (fun i => i.token == t && i.status == "pending") :=
      List.mem_filter.mpr ⟨hx, hx2⟩
    rw [hf] at hmem
    have hxinv : x = inv := by simpa using hmem
    rw [hxinv] at hid
    simp at hid

/-- The successful invited-registration path of `registerRecruiter`,
computed in full. -/
theorem registerRecruiter_token_success (env : Env) (db : Db) (now : Nat)
    (uid rid : String) (body : RegisterRecruiterBody) (t : String)
    (inv : InvitationRow) (s : String)
    (hval : registerRecruiterValidate body = true)
    (htok : body.token = some t)
    (hhead : (db.recruiterInvitations.filter
        (fun i => i.token == t && i.status == "pending")).head? = some inv)
    (hmail : strToLower inv.email = strToLower body.email)
    (hexp : inviteExpired inv now = false)
    (hfree : db.users.filter (fun q => q.email == strToLower body.email) = [])
    (hsec : env.jwtSecret = some s) (hsne : s.isEmpty = false) :
    registerRecruiter env db now uid rid body =
      (let recruiterRoleId := (getRecruiterRoleId db).1
       let db1 := (getRecruiterRoleId db).2
       let user : UserRow := ⟨uid, strToLower body.email, hashPassword body.password,
         (splitFullName body.fullName).1, (splitFullName body.fullName).2⟩
       let db2 := { db1 with users := db1.users ++ [user] }
       let db3 := { db2 with userRoles := db2.userRoles ++ [UserRoleRow.mk user.id recruiterRoleId] }
       let recruiter : RecruiterRow := ⟨rid, user.id, sanitizeString body.phone,
         sanitizeString body.city, "active", body.latitude, body.longitude, body.avatarUrl⟩
       let db4 := { db3 with recruiters := db3.recruiters ++ [recruiter] }
       let db5 := { db4 with
         recruiterEvents := db4.recruiterEvents ++
           [RecruiterEventRow.mk recruiter.id "recruiter_registered"
             [("viaInvitation", toString (some t : Option String).isSome),
              ("city", recruiter.city)]] }
       let db6 := { db5 with
         recruiterInvitations := db5.recruiterInvitations.map (fun i =>
           if i.id == inv.id then { i with status := "accepted", acceptedAt := some now }
           else i) }
       (.ok user ["recruiter"] recruiter ⟨uid, ["recruiter"]⟩, db6)) := by
  unfold registerRecruiter
  rw [hval]
  simp only [Bool.not_true, Bool.false_eq_true, if_false]
  try dsimp only
  rw [htok]
  try dsimp only
  rw [hhead]
  try dsimp only
  rw [if_neg (show ¬(strToLower inv.email ≠ strToLower body.email) from fun h => h hmail)]
  rw [hexp]
  simp only [Bool.false_eq_true, if_false]
  try dsimp only
  rw [hfree]
  simp only [List.isEmpty_nil, Bool.not_true, Bool.false_eq_true, if_false]
  try dsimp only
  rw [hsec]
  unfold generateToken
  try dsimp only
  rw [hsne]
  rfl

/-! ## Claim C1 -/

/-- Claim C1 (amended): an invitation token is single-use — a successful
`registerRecruiter` with a matching, unexpired token moves the one pending
invitation holding it to `accepted`, after which no pending invitation
carries that token and any subsequent `registerRecruiter` call supplying it
fails with `INVALID_INVITE_TOKEN`; accepted invitations can be neither
re-accepted nor revoked (revocation answers `INVITE_ALREADY_ACCEPTED`);
revoked invitations cannot be re-accepted via `registerRecruiter`, but
`revokeRecruiterInvitation` called on an already-revoked invitation succeeds
again (re-stamping `revokedAt`, the status staying `revoked`) rather than
failing. -/
theorem c1_invitation_token_lifecycle :
    (∀ (env : Env) (db : Db) (now : Nat) (uid rid : String)
        (body : RegisterRecruiterBody) (t : String) (inv : InvitationRow) (s : String),
      registerRecruiterValidate body = true →
      body.token = some t →
      db.recruiterInvitations.filter (fun i => i.token == t && i.status == "pending") = [inv] →
      strToLower inv.email = strToLower body.email →
      inviteExpired inv now = false →
      db.users.filter (fun q => q.email == strToLower body.email) = [] →
      env.jwtSecret = some s → s.isEmpty = false →
      inv.status = "pending" ∧
      (∃ user recruiter tok,
        (registerRecruiter env db now uid rid body).1 = .ok user ["recruiter"] recruiter tok) ∧
      ((registerRecruiter env db now uid rid body).2).recruiterInvitations.filter
          (fun i => i.token == t && i.status == "pending") = [] ∧
      (∃ inv', inv' ∈ ((registerRecruiter env db now uid rid body).2).recruiterInvitations ∧
        inv'.id = inv.id ∧ inv'.status = "accepted" ∧ inv'.acceptedAt = some now) ∧
      (∀ (now2 : Nat) (uid2 rid2 : String) (body2 : RegisterRecruiterBody),
        registerRecruiterValidate body2 = true →
        body2.token = some t →
        registerRecruiter env ((registerRecruiter env db now uid rid body).2) now2 uid2 rid2
            body2 =
          (.err 400 "INVALID_INVITE_TOKEN", (registerRecruiter env db now uid rid body).2))) ∧
    (∀ (env : Env) (db : Db) (now : Nat) (uid rid : String)
        (body : RegisterRecruiterBody) (t : String),
      registerRecruiterValidate body = true →
      body.token = some t →
      db.recruiterInvitations.filter (fun i => i.token == t && i.status == "pending") = [] →
      registerRecruiter env db now uid rid body = (.err 400 "INVALID_INVITE_TOKEN", db)) ∧
    (∀ (env : Env) (db : Db) (now : Nat) (uid rid : String)
        (body : RegisterRecruiterBody) (t : String),
      registerRecruiterValidate body = true →
      body.token = some t →
      (∀ i ∈ db.recruiterInvitations, i.token = t →
        i.status = "accepted" ∨ i.status = "revoked") →
      registerRecruiter env db now uid rid body = (.err 400 "INVALID_INVITE_TOKEN", db)) ∧
    (∀ (db : Db) (now : Nat) (id : String) (inv : InvitationRow) (rest : List InvitationRow),
      id ≠ "" →
      db.recruiterInvitations.filter (fun i => i.id == id) = inv :: rest →
      inv.status = "accepted" →
      revokeRecruiterInvitation db id now = (.err 400 "INVITE_ALREADY_ACCEPTED", db)) ∧
    (∀ (db : Db) (now : Nat) (id : String) (inv : InvitationRow) (rest : List InvitationRow),
      id ≠ "" →
      db.recruiterInvitations.filter (fun i => i.id == id) = inv :: rest →
      inv.status = "revoked" →
      (revokeRecruiterInvitation db id now).1 = .ok id ∧
      (∀ j ∈ ((revokeRecruiterInvitation db id now).2).recruiterInvitations,
        j.id = id → j.status = "revoked")) := by
  refine ⟨?_, ?_, ?_, ?_, ?_⟩
  · intro env db now uid rid body t inv s hval htok hfilter hmail hexp hfree hsec hsne
    have hhead : (db.recruiterInvitations.filter
        (fun i => i.token == t && i.status == "pending")).head? = some inv := by
      rw [hfilter]
      rfl
    have hinvmem : inv ∈ db.recruiterInvitations ∧
        (inv.token == t && inv.status == "pending") = true := by
      have : inv ∈ db.recruiterInvitations.filter
          (fun i => i.token == t && i.status == "pending") := by
        rw [hfilter]
        exact List.mem_cons_self _ _
      exact List.mem_filter.mp this
    have hsucc := registerRecruiter_token_success env db now uid rid body t inv s
      hval htok hhead hmail hexp hfree hsec hsne
    have hpend : inv.status = "pending" := by
      have := hinvmem.2
      simp only [Bool.and_eq_true, beq_iff_eq] at this
      exact this.2
    have hinvs : ((registerRecruiter env db now uid rid body).2).recruiterInvitations =
        db.recruiterInvitations.map (fun i =>
          if i.id == inv.id then { i with status := "accepted", acceptedAt := some now }
          else i) := by
      rw [hsucc]
      dsimp only
      rw [getRecruiterRoleId_invitations]
    have hnil2 : ((registerRecruiter env db now uid rid body).2).recruiterInvitations.filter
        (fun i => i.token == t && i.status == "pending") = [] := by
      rw [hinvs]
      exact accepted_update_no_pending _ t inv now hfilter
    refine ⟨hpend, ?_, hnil2, ?_, ?_⟩
    · rw [hsucc]
      exact ⟨_, _, _, rfl⟩
    · refine ⟨{ inv with status := "accepted", acceptedAt := some now }, ?_, rfl, rfl, rfl⟩
      rw [hinvs]
      refine List.mem_map.mpr ⟨inv, hinvmem.1, ?_⟩
      simp
    · intro now2 uid2 rid2 body2 hval2 htok2
      exact registerRecruiter_no_pending env _ now2 uid2 rid2 body2 t hval2 htok2 hnil2
  · intro env db now uid rid body t hval htok hnil
    exact registerRecruiter_no_pending env db now uid rid body t hval htok hnil
  · intro env db now uid rid body t hval htok hterm
    have hnil : db.recruiterInvitations.filter
        (fun i => i.token == t && i.status == "pending") = [] := by
      rw [List.filter_eq_nil_iff]
      intro i hi
      intro hcontra
      simp only [Bool.and_eq_true, beq_iff_eq] at hcontra
      rcases hterm i hi hcontra.1 with h | h <;> rw [h] at hcontra <;> simp at hcontra
    exact registerRecruiter_no_pending env db now uid rid body t hval htok hnil
  · intro db now id inv rest hid hfilt hacc
    unfold revokeRecruiterInvitation
    rw [stringIsEmpty_false_of_ne _ hid]
    simp only [Bool.false_eq_true, if_false, hfilt, List.head?_cons]
    rw [hacc]
    rfl
  · intro db now id inv rest hid hfilt hrev
    have hbeq : (inv.status == "accepted") = false := by
      rw [hrev]
      rfl
    have hres : revokeRecruiterInvitation db id now =
        (.ok id,
         { db with
            recruiterInvitations :=
              db.recruiterInvitations.map (fun i =>
                if i.id == id then { i with status := "revoked", revokedAt := some now }
                else i) }) := by
      unfold revokeRecruiterInvitation
      rw [stringIsEmpty_false_of_ne _ hid]
      simp only [Bool.false_eq_true, if_false, hfilt, List.head?_cons]
      rw [hbeq]
      rfl
    rw [hres]
    refine ⟨rfl, ?_⟩
    intro j hj hjid
    dsimp only at hj
    obtain ⟨x, hx, hxj⟩ := List.mem_map.mp hj
    by_cases hxid : (x.id == id) = true
    · rw [← hxj]
      simp [hxid]
    · have : j = x := by
        rw [← hxj]
        simp [hxid]
    -- x.id ≠ id but j.id = id and j = x: contradiction
      rw [this] at hjid
      simp [hjid] at hxid

/-- Claim C1 witness: a full concrete lifecycle — an invited registration
accepts the token, the immediate reuse of the token fails with
`INVALID_INVITE_TOKEN`, and revoking the accepted invitation fails with
`INVITE_ALREADY_ACCEPTED`. -/
theorem c1_invitation_token_lifecycle_witness :
    (∃ user recruiter tok,
      (registerRecruiter ⟨some "secret", none⟩
          (Db.mk [] [] [] [] [⟨"i1", "a@b.c", "00000000-0000-0000-0000-000000000001",
            "pending", none, some 100, none, none⟩] [] [] [] [] 1 1)
          5 "u1" "r1"
          ⟨"Jane Doe", "a@b.c", "Password1", "Password1", "1234567", "Metro",
           some "00000000-0000-0000-0000-000000000001", none, none, none⟩).1 =
        .ok user ["recruiter"] recruiter tok) ∧
    (∀ (now2 : Nat),
      registerRecruiter ⟨some "secret", none⟩
          ((registerRecruiter ⟨some "secret", none⟩
            (Db.mk [] [] [] [] [⟨"i1", "a@b.c", "00000000-0000-0000-0000-000000000001",
              "pending", none, some 100, none, none⟩] [] [] [] [] 1 1)
            5 "u1" "r1"
            ⟨"Jane Doe", "a@b.c", "Password1", "Password1", "1234567", "Metro",
             some "00000000-0000-0000-0000-000000000001", none, none, none⟩).2) now2 "u2" "r2"
          ⟨"Ann Oak", "x@y.zz", "Password1", "Password1", "7654321", "Metro",
           some "00000000-0000-0000-0000-000000000001", none, none, none⟩ =
        (.err 400 "INVALID_INVITE_TOKEN",
          (registerRecruiter ⟨some "secret", none⟩
            (Db.mk [] [] [] [] [⟨"i1", "a@b.c", "00000000-0000-0000-0000-000000000001",
              "pending", none, some 100, none, none⟩] [] [] [] [] 1 1)
            5 "u1" "r1"
            ⟨"Jane Doe", "a@b.c", "Password1", "Password1", "1234567", "Metro",
             some "00000000-0000-0000-0000-000000000001", none, none, none⟩).2)) ∧
    revokeRecruiterInvitation
        (Db.mk [] [] [] [] [⟨"i1", "a@b.c", "00000000-0000-0000-0000-000000000001",
          "accepted", none, some 100, some 5, none⟩] [] [] [] [] 1 1) "i1" 9 =
      (.err 400 "INVITE_ALREADY_ACCEPTED",
        Db.mk [] [] [] [] [⟨"i1", "a@b.c", "00000000-0000-0000-0000-000000000001",
          "accepted", none, some 100, some 5, none⟩] [] [] [] [] 1 1) := by
  have hA := c1_invitation_token_lifecycle.1 ⟨some "secret", none⟩
    (Db.mk [] [] [] [] [⟨"i1", "a@b.c", "00000000-0000-0000-0000-000000000001",
      "pending", none, some 100, none, none⟩] [] [] [] [] 1 1)
    5 "u1" "r1"
    ⟨"Jane Doe", "a@b.c", "Password1", "Password1", "1234567", "Metro",
     some "00000000-0000-0000-0000-000000000001", none, none, none⟩
    "00000000-0000-0000-0000-000000000001"
    ⟨"i1", "a@b.c", "00000000-0000-0000-0000-000000000001", "pending", none, some 100,
      none, none⟩
    "secret" (by decide) rfl (by decide) (by decide) (by decide) (by decide) rfl (by decide)
  refine ⟨hA.2.1, ?_, ?_⟩
  · intro now2
    exact hA.2.2.2.2 now2 "u2" "r2"
      ⟨"Ann Oak", "x@y.zz", "Password1", "Password1", "7654321", "Metro",
       some "00000000-0000-0000-0000-000000000001", none, none, none⟩
      (by decide) rfl
  · exact c1_invitation_token_lifecycle.2.2.2.1
      (Db.mk [] [] [] [] [⟨"i1", "a@b.c", "00000000-0000-0000-0000-000000000001",
        "accepted", none, some 100, some 5, none⟩] [] [] [] [] 1 1)
      9 "i1"
      ⟨"i1", "a@b.c", "00000000-0000-0000-0000-000000000001", "accepted", none, some 100,
        some 5, none⟩
      [] (by decide) (by decide) rfl

/-- Claim C1 counterexample: `revokeRecruiterInvitation` called on an
invitation whose status is already `revoked` succeeds with a 200-style `ok`
response (re-stamping `revokedAt`) instead of failing, so revoked
invitations are not terminal with respect to re-revocation as claimed. -/
theorem c1_revoked_invitation_rerevoke_counterexample :
    (revokeRecruiterInvitation
        (Db.mk [] [] [] [] [⟨"i1", "a@b.c", "00000000-0000-0000-0000-000000000001",
          "revoked", none, some 100, none, some 3⟩] [] [] [] [] 1 1) "i1" 9).1 =
      .ok "i1" ∧
    ((revokeRecruiterInvitation
        (Db.mk [] [] [] [] [⟨"i1", "a@b.c", "00000000-0000-0000-0000-000000000001",
          "revoked", none, some 100, none, some 3⟩] [] [] [] [] 1 1) "i1" 9).2).recruiterInvitations =
      [⟨"i1", "a@b.c", "00000000-0000-0000-0000-000000000001", "revoked", none, some 100,
        none, some 9⟩] := by
  constructor
  · rfl
  · rfl

end Bibidi
